import Mathlib

/-!
# SceneManager and ViewManager: a shallow embedding

The texture and material registry of `SceneManager.cpp` and the camera
controller of `ViewManager.cpp`, as Lean functions with explicit state.

Conventions of the embedding.

* `float` and `double` values are elements of one ordered field `F`, and
  the four arithmetic operations on them are exact: the rounding of a sum
  or a product is not modelled.
* The conversion of a `double` to `float`, written `(float)` or
  `static_cast<float>` in the code or made by an assignment, is the function
  `toFloat` of the parameter `FloatLib F`; it rounds, and the code's mixing
  of a stored `float` with a `double` position shows through it. The
  conversion of a `float` to `double` is exact and is not written.
* What the C and GLM math libraries compute outside the field operations
  (`cos`, `sin`, `tan`, `inversesqrt`, the degree-to-radian factor) is in
  the same parameter `FloatLib F` of every function that calls them.
* What the outside world returns to a call (the decoded image of
  `stbi_load`, the texture name of `glGenTextures`, the key states of
  `glfwGetKey`) is an argument of the function that makes the call.
* The shader object records the uniform uploads it receives, in order; the
  mesh object records the draw calls it receives, each with the shader
  object as it was at the call.
-/

namespace CS330

/-! ## Scalars and the GLM subset that the two files use -/

/-- The math-library functions that the code calls on `float` values. -/
structure FloatLib (F : Type) where
  /-- The function `cos` on radians -/
  cos : F → F
  /-- The function `sin` on radians -/
  sin : F → F
  /-- The function `tan` on radians -/
  tan : F → F
  /-- The function `glm::inversesqrt` -/
  inversesqrt : F → F
  /-- The factor by which `glm::radians` multiplies its argument -/
  degToRad : F
  /-- The conversion of a `double` to `float` -/
  toFloat : F → F

namespace glm

/-- A `glm::vec2`. -/
structure vec2 (F : Type) where
  x : F
  y : F
deriving DecidableEq

/-- A `glm::vec3`. -/
structure vec3 (F : Type) where
  x : F
  y : F
  z : F
deriving DecidableEq

/-- A `glm::vec4`. -/
structure vec4 (F : Type) where
  x : F
  y : F
  z : F
  w : F
deriving DecidableEq

/-- A `glm::mat4`: four columns, `m[i]` is column `i` (column-major). -/
structure mat4 (F : Type) where
  c0 : vec4 F
  c1 : vec4 F
  c2 : vec4 F
  c3 : vec4 F
deriving DecidableEq

variable {F : Type} [LinearOrderedField F]

/-- Componentwise sum `a + b` of two `vec3`. -/
def vec3.add (a b : vec3 F) : vec3 F := ⟨a.x + b.x, a.y + b.y, a.z + b.z⟩

/-- Componentwise difference `a - b` of two `vec3`. -/
def vec3.sub (a b : vec3 F) : vec3 F := ⟨a.x - b.x, a.y - b.y, a.z - b.z⟩

/-- Product `v * k` (equally `k * v`) of a `vec3` and a scalar. -/
def vec3.scale (v : vec3 F) (k : F) : vec3 F := ⟨v.x * k, v.y * k, v.z * k⟩

/-- Componentwise sum `a + b` of two `vec4`. -/
def vec4.add (a b : vec4 F) : vec4 F := ⟨a.x + b.x, a.y + b.y, a.z + b.z, a.w + b.w⟩

/-- Product `v * k` of a `vec4` and a scalar. -/
def vec4.scale (v : vec4 F) (k : F) : vec4 F := ⟨v.x * k, v.y * k, v.z * k, v.w * k⟩

/-- The value of `glm::dot(a, b)` on `vec3`. -/
def dot (a b : vec3 F) : F := a.x * b.x + a.y * b.y + a.z * b.z

/-- The value of `glm::cross(a, b)`. -/
def cross (a b : vec3 F) : vec3 F :=
  ⟨a.y * b.z - b.y * a.z, a.z * b.x - b.z * a.x, a.x * b.y - b.x * a.y⟩

/-- The value of `glm::normalize(v)`, computed as `v * inversesqrt(dot(v, v))`. -/
def normalize (L : FloatLib F) (v : vec3 F) : vec3 F := v.scale (L.inversesqrt (dot v v))

/-- The value of `glm::radians(degrees)`. -/
def radians (L : FloatLib F) (degrees : F) : F := degrees * L.degToRad

/-- The matrix `glm::mat4(1.0f)`. -/
def mat4.identity : mat4 F := ⟨⟨1, 0, 0, 0⟩, ⟨0, 1, 0, 0⟩, ⟨0, 0, 1, 0⟩, ⟨0, 0, 0, 1⟩⟩

/-- The product `m1 * m2` of two `mat4`: column `j` of the result is
`m1[0] * m2[j][0] + m1[1] * m2[j][1] + m1[2] * m2[j][2] + m1[3] * m2[j][3]`. -/
def mat4.mul (m1 m2 : mat4 F) : mat4 F :=
  let col (b : vec4 F) : vec4 F :=
    (((m1.c0.scale b.x).add (m1.c1.scale b.y)).add (m1.c2.scale b.z)).add (m1.c3.scale b.w)
  ⟨col m2.c0, col m2.c1, col m2.c2, col m2.c3⟩

instance : Mul (mat4 F) := ⟨mat4.mul⟩

/-- The three-argument `glm::translate(m, v)`. -/
def translateM (m : mat4 F) (v : vec3 F) : mat4 F :=
  { m with c3 := (((m.c0.scale v.x).add (m.c1.scale v.y)).add (m.c2.scale v.z)).add m.c3 }

/-- The three-argument `glm::scale(m, v)`. -/
def scaleM (m : mat4 F) (v : vec3 F) : mat4 F :=
  ⟨m.c0.scale v.x, m.c1.scale v.y, m.c2.scale v.z, m.c3⟩

/-- The three-argument `glm::rotate(m, angle, v)`: the axis is normalised and
the rotation block is built from `cos(angle)`, `sin(angle)` and
`temp = (1 - cos(angle)) * axis`. -/
def rotateM (L : FloatLib F) (m : mat4 F) (angle : F) (v : vec3 F) : mat4 F :=
  let c := L.cos angle
  let s := L.sin angle
  let axis := normalize L v
  let temp := axis.scale (1 - c)
  let r00 := c + temp.x * axis.x
  let r01 := temp.x * axis.y + s * axis.z
  let r02 := temp.x * axis.z - s * axis.y
  let r10 := temp.y * axis.x - s * axis.z
  let r11 := c + temp.y * axis.y
  let r12 := temp.y * axis.z + s * axis.x
  let r20 := temp.z * axis.x + s * axis.y
  let r21 := temp.z * axis.y - s * axis.x
  let r22 := c + temp.z * axis.z
  ⟨((m.c0.scale r00).add (m.c1.scale r01)).add (m.c2.scale r02),
   ((m.c0.scale r10).add (m.c1.scale r11)).add (m.c2.scale r12),
   ((m.c0.scale r20).add (m.c1.scale r21)).add (m.c2.scale r22),
   m.c3⟩

/-- The one-argument `glm::translate(v)` of `glm/gtx/transform.hpp`. -/
def translate (v : vec3 F) : mat4 F := translateM mat4.identity v

/-- The one-argument `glm::scale(v)` of `glm/gtx/transform.hpp`. -/
def scale (v : vec3 F) : mat4 F := scaleM mat4.identity v

/-- The two-argument `glm::rotate(angle, v)` of `glm/gtx/transform.hpp`. -/
def rotate (L : FloatLib F) (angle : F) (v : vec3 F) : mat4 F := rotateM L mat4.identity angle v

/-- A `mat4` as a Mathlib matrix: the entry in row `i` and column `j` is
component `i` of column `j`. -/
def mat4.toMatrix (m : mat4 F) : Matrix (Fin 4) (Fin 4) F :=
  !![m.c0.x, m.c1.x, m.c2.x, m.c3.x;
     m.c0.y, m.c1.y, m.c2.y, m.c3.y;
     m.c0.z, m.c1.z, m.c2.z, m.c3.z;
     m.c0.w, m.c1.w, m.c2.w, m.c3.w]

end glm

/-! ## The shader interface -/

/-- A value uploaded to a uniform. -/
inductive UniformValue (F : Type) where
  | int (v : Int)
  | float (v : F)
  | vec2 (v : glm.vec2 F)
  | vec3 (v : glm.vec3 F)
  | vec4 (v : glm.vec4 F)
  | mat4 (v : glm.mat4 F)
  | sampler2D (v : Int)
deriving DecidableEq

/-- Modelled from the spec: `ShaderManager` (ShaderManager.h is not among the
sources) is the by-name uniform upload interface; the object keeps the
uploads it received, oldest first. -/
structure ShaderManager (F : Type) where
  uploads : List (String × UniformValue F)
deriving DecidableEq

namespace ShaderManager

variable {F : Type}

/-- Upload by `setIntValue(name, value)`. -/
def setIntValue (name : String) (v : Int) (sh : ShaderManager F) : ShaderManager F :=
  ⟨sh.uploads ++ [(name, UniformValue.int v)]⟩

/-- Upload by `setFloatValue(name, value)`. -/
def setFloatValue (name : String) (v : F) (sh : ShaderManager F) : ShaderManager F :=
  ⟨sh.uploads ++ [(name, UniformValue.float v)]⟩

/-- Upload by `setVec2Value(name, value)`. -/
def setVec2Value (name : String) (v : glm.vec2 F) (sh : ShaderManager F) : ShaderManager F :=
  ⟨sh.uploads ++ [(name, UniformValue.vec2 v)]⟩

/-- Upload by `setVec3Value(name, value)`. -/
def setVec3Value (name : String) (v : glm.vec3 F) (sh : ShaderManager F) : ShaderManager F :=
  ⟨sh.uploads ++ [(name, UniformValue.vec3 v)]⟩

/-- Upload by `setVec4Value(name, value)`. -/
def setVec4Value (name : String) (v : glm.vec4 F) (sh : ShaderManager F) : ShaderManager F :=
  ⟨sh.uploads ++ [(name, UniformValue.vec4 v)]⟩

/-- Upload by `setMat4Value(name, value)`. -/
def setMat4Value (name : String) (v : glm.mat4 F) (sh : ShaderManager F) : ShaderManager F :=
  ⟨sh.uploads ++ [(name, UniformValue.mat4 v)]⟩

/-- Upload by `setSampler2DValue(name, value)`. -/
def setSampler2DValue (name : String) (v : Int) (sh : ShaderManager F) : ShaderManager F :=
  ⟨sh.uploads ++ [(name, UniformValue.sampler2D v)]⟩

/-- The value a uniform holds: that of the most recent upload under its name. -/
def current (sh : ShaderManager F) (name : String) : Option (UniformValue F) :=
  (sh.uploads.reverse.find? fun u => u.1 = name).map Prod.snd

end ShaderManager

/-! ## SceneManager -/

/-- The global names of `SceneManager.cpp`. -/
def g_ModelName : String := "model"

/-- An entry of the texture table: `TEXTURE_INFO` (`ID` is a `GLuint`). -/
structure TEXTURE_INFO where
  ID : Nat
  tag : String
deriving DecidableEq

/-- A material record: `OBJECT_MATERIAL`. -/
structure OBJECT_MATERIAL (F : Type) where
  ambientColor : glm.vec3 F
  ambientStrength : F
  diffuseColor : glm.vec3 F
  specularColor : glm.vec3 F
  shininess : F
  tag : String
deriving DecidableEq

/-- Capacity of the array `m_textureIDs` (the declaration is in
SceneManager.h, which is not among the sources; the spec and the comment of
`BindGLTextures` give 16). -/
def MAX_TEXTURES : Nat := 16

/-- The members of `SceneManager` that the registry and the shader-state
functions use. `m_textureIDs` is the memory at the array's base, indexed
without a bound as the code indexes it: cells `0 .. MAX_TEXTURES - 1` are the
array, a write to a later cell is a write past its end. -/
structure SceneManager (F : Type) where
  m_pShaderManager : Option (ShaderManager F)
  m_textureIDs : Nat → TEXTURE_INFO
  m_loadedTextures : Nat
  m_objectMaterials : List (OBJECT_MATERIAL F)

/-- What `stbi_load` returns for a file it could decode. -/
structure STBImage where
  width : Int
  height : Int
  colorChannels : Int
deriving DecidableEq

namespace SceneManager

variable {F : Type}

/-- `SceneManager::CreateGLTexture`. `image` is the result of `stbi_load` on
the file (`none` for a null pointer), `textureID` the name `glGenTextures`
wrote. The result is the returned `bool` and the object afterwards. -/
def CreateGLTexture (image : Option STBImage) (textureID : Nat) (tag : String)
    (s : SceneManager F) : Bool × SceneManager F :=
  match image with
  | some img =>
    if img.colorChannels = 3 ∨ img.colorChannels = 4 then
      (true,
        { s with
          m_textureIDs := fun i =>
            if i = s.m_loadedTextures then ⟨textureID, tag⟩ else s.m_textureIDs i
          m_loadedTextures := s.m_loadedTextures + 1 })
    else
      (false, s)
  | none => (false, s)

/-- The conversion of a `GLuint` to the `int` that `FindTextureID` returns. -/
def toInt32 (n : Nat) : Int :=
  if n % 2 ^ 32 < 2 ^ 31 then (n % 2 ^ 32 : Nat) else ((n % 2 ^ 32 : Nat) : Int) - 2 ^ 32

/-- The `while` loop of `FindTextureID` from the position `index`, with
`textureID = -1` and `bFound = false` on entry; `n` is
`m_loadedTextures - index`, so that `n = 0` is the exit `index >=
m_loadedTextures`. -/
def FindTextureID.loop (ids : Nat → TEXTURE_INFO) (tag : String) : Nat → Nat → Int
  | 0, _ => -1
  | n + 1, index =>
    if (ids index).tag = tag then toInt32 (ids index).ID
    else FindTextureID.loop ids tag n (index + 1)

/-- `SceneManager::FindTextureID`. -/
def FindTextureID (s : SceneManager F) (tag : String) : Int :=
  FindTextureID.loop s.m_textureIDs tag s.m_loadedTextures 0

/-- The `while` loop of `FindTextureSlot` from the position `index`, with
`textureSlot = -1` and `bFound = false` on entry; `n` is
`m_loadedTextures - index`. -/
def FindTextureSlot.loop (ids : Nat → TEXTURE_INFO) (tag : String) : Nat → Nat → Int
  | 0, _ => -1
  | n + 1, index =>
    if (ids index).tag = tag then (index : Int)
    else FindTextureSlot.loop ids tag n (index + 1)

/-- `SceneManager::FindTextureSlot`. -/
def FindTextureSlot (s : SceneManager F) (tag : String) : Int :=
  FindTextureSlot.loop s.m_textureIDs tag s.m_loadedTextures 0

/-- The `while` loop of `FindMaterial` over the entries from `index` on
(`mats` is that rest of `m_objectMaterials`): the value of `bFound` at the
exit and the caller's `material` after the assignments. A match copies the
five value members and not the tag. -/
def FindMaterial.loop (tag : String) (material : OBJECT_MATERIAL F) :
    List (OBJECT_MATERIAL F) → Bool × OBJECT_MATERIAL F
  | [] => (false, material)
  | m :: mats =>
    if m.tag = tag then
      (true,
        { material with
          ambientColor := m.ambientColor
          ambientStrength := m.ambientStrength
          diffuseColor := m.diffuseColor
          specularColor := m.specularColor
          shininess := m.shininess })
    else FindMaterial.loop tag material mats

/-- `SceneManager::FindMaterial`: the returned `bool` and the reference
argument `material` afterwards. The function ends in `return(true)`; the
loop's `bFound` is not what it returns. -/
def FindMaterial (s : SceneManager F) (tag : String) (material : OBJECT_MATERIAL F) :
    Bool × OBJECT_MATERIAL F :=
  if s.m_objectMaterials.length = 0 then (false, material)
  else (true, (FindMaterial.loop tag material s.m_objectMaterials).2)

/-- `SceneManager::SetShaderColor`. -/
def SetShaderColor (redColorValue greenColorValue blueColorValue alphaValue : F)
    (s : SceneManager F) : SceneManager F :=
  match s.m_pShaderManager with
  | some sh =>
    { s with
      m_pShaderManager := some
        ((sh.setIntValue "bUseTexture" 0).setVec4Value "objectColor"
          ⟨redColorValue, greenColorValue, blueColorValue, alphaValue⟩) }
  | none => s

/-- `SceneManager::SetShaderTexture`. -/
def SetShaderTexture (textureTag : String) (s : SceneManager F) : SceneManager F :=
  match s.m_pShaderManager with
  | some sh =>
    { s with
      m_pShaderManager := some
        ((sh.setIntValue "bUseTexture" 1).setSampler2DValue "objectTexture"
          (FindTextureSlot s textureTag)) }
  | none => s

/-- `SceneManager::SetTextureUVScale`. -/
def SetTextureUVScale (u v : F) (s : SceneManager F) : SceneManager F :=
  match s.m_pShaderManager with
  | some sh => { s with m_pShaderManager := some (sh.setVec2Value "UVscale" ⟨u, v⟩) }
  | none => s

/-- `SceneManager::SetShaderMaterial`. `local0` is the content of the local
`OBJECT_MATERIAL material` at its declaration, which the code does not
initialise. The five uploads go through `m_pShaderManager` without a null
test: the result is `none` when they are reached with a null pointer. -/
def SetShaderMaterial (materialTag : String) (local0 : OBJECT_MATERIAL F)
    (s : SceneManager F) : Option (SceneManager F) :=
  if s.m_objectMaterials.length > 0 then
    let r := FindMaterial s materialTag local0
    let bReturn := r.1
    let material := r.2
    if bReturn = true then
      match s.m_pShaderManager with
      | some sh =>
        some { s with
          m_pShaderManager := some
            (((((sh.setVec3Value "material.ambientColor" material.ambientColor).setFloatValue
              "material.ambientStrength" material.ambientStrength).setVec3Value
              "material.diffuseColor" material.diffuseColor).setVec3Value
              "material.specularColor" material.specularColor).setFloatValue
              "material.shininess" material.shininess) }
      | none => none
    else some s
  else some s

variable [LinearOrderedField F]

/-- The matrix `modelView` that `SetTransformations` computes. -/
def modelView (L : FloatLib F) (scaleXYZ : glm.vec3 F)
    (XrotationDegrees YrotationDegrees ZrotationDegrees : F) (positionXYZ : glm.vec3 F) :
    glm.mat4 F :=
  let scale := glm.scale scaleXYZ
  let rotationX := glm.rotate L (glm.radians L XrotationDegrees) ⟨1, 0, 0⟩
  let rotationY := glm.rotate L (glm.radians L YrotationDegrees) ⟨0, 1, 0⟩
  let rotationZ := glm.rotate L (glm.radians L ZrotationDegrees) ⟨0, 0, 1⟩
  let translation := glm.translate positionXYZ
  translation * rotationX * rotationY * rotationZ * scale

/-- `SceneManager::SetTransformations`. -/
def SetTransformations (L : FloatLib F) (scaleXYZ : glm.vec3 F)
    (XrotationDegrees YrotationDegrees ZrotationDegrees : F) (positionXYZ : glm.vec3 F)
    (s : SceneManager F) : SceneManager F :=
  match s.m_pShaderManager with
  | some sh =>
    { s with
      m_pShaderManager := some
        (sh.setMat4Value g_ModelName
          (modelView L scaleXYZ XrotationDegrees YrotationDegrees ZrotationDegrees
            positionXYZ)) }
  | none => s

end SceneManager

/-! ## Sequences of texture registrations -/

/-- One call of `CreateGLTexture`: what the decoder and `glGenTextures`
returned to it, and its tag. -/
structure TextureLoad where
  image : Option STBImage
  textureID : Nat
  tag : String
deriving DecidableEq

/-- The calls of `CreateGLTexture` in order: the returned values and the
object after the last call. -/
def CreateGLTextureSeq {F : Type} : List TextureLoad → SceneManager F → List Bool × SceneManager F
  | [], s => ([], s)
  | c :: cs, s =>
    let r := SceneManager.CreateGLTexture c.image c.textureID c.tag s
    let rs := CreateGLTextureSeq cs r.2
    (r.1 :: rs.1, rs.2)

/-! ## The matrices in the spec's words -/

namespace Spec

variable {F : Type} [LinearOrderedField F]

/-- Translation by `p`, as a matrix acting on column vectors. -/
def Translation (p : glm.vec3 F) : Matrix (Fin 4) (Fin 4) F :=
  !![1, 0, 0, p.x; 0, 1, 0, p.y; 0, 0, 1, p.z; 0, 0, 0, 1]

/-- Rotation about the X axis by an angle with cosine `c` and sine `s`. -/
def RotationX (c s : F) : Matrix (Fin 4) (Fin 4) F :=
  !![1, 0, 0, 0; 0, c, -s, 0; 0, s, c, 0; 0, 0, 0, 1]

/-- Rotation about the Y axis by an angle with cosine `c` and sine `s`. -/
def RotationY (c s : F) : Matrix (Fin 4) (Fin 4) F :=
  !![c, 0, s, 0; 0, 1, 0, 0; -s, 0, c, 0; 0, 0, 0, 1]

/-- Rotation about the Z axis by an angle with cosine `c` and sine `s`. -/
def RotationZ (c s : F) : Matrix (Fin 4) (Fin 4) F :=
  !![c, -s, 0, 0; s, c, 0, 0; 0, 0, 1, 0; 0, 0, 0, 1]

/-- Scaling by `k` along the three axes. -/
def Scale (k : glm.vec3 F) : Matrix (Fin 4) (Fin 4) F :=
  !![k.x, 0, 0, 0; 0, k.y, 0, 0; 0, 0, k.z, 0; 0, 0, 0, 1]

/-- The model matrix of the spec: `Translation x RotationX x RotationY x
RotationZ x Scale`, the angles in degrees and converted to radians. -/
def Model (L : FloatLib F) (scale : glm.vec3 F) (rotX rotY rotZ : F) (position : glm.vec3 F) :
    Matrix (Fin 4) (Fin 4) F :=
  Translation position
    * RotationX (L.cos (rotX * L.degToRad)) (L.sin (rotX * L.degToRad))
    * RotationY (L.cos (rotY * L.degToRad)) (L.sin (rotY * L.degToRad))
    * RotationZ (L.cos (rotZ * L.degToRad)) (L.sin (rotZ * L.degToRad))
    * Scale scale

end Spec

/-! ## ViewManager -/

/-- Modelled from the spec: the members of `Camera` (camera.h is not among
the sources) that ViewManager.cpp reads and writes. -/
structure Camera (F : Type) where
  Position : glm.vec3 F
  Front : glm.vec3 F
  Up : glm.vec3 F
  Yaw : F
  Pitch : F
  Zoom : F
deriving DecidableEq

/-- The state of ViewManager.cpp: the members of the object, the globals of
the anonymous namespace, and the `static` locals of the two mouse callbacks
(`firstMouse`, `lastX`, `lastY` of `Mouse_Position_Callback`,
`movementSpeed` of `Mouse_Scroll_Callback`). `windowShouldClose` is the flag
of the window that `glfwSetWindowShouldClose` sets. -/
structure ViewManager (F : Type) where
  m_pShaderManager : Option (ShaderManager F)
  g_pCamera : Camera F
  bOrthographicProjection : Bool
  gDeltaTime : F
  gLastFrame : F
  firstMouse : Bool
  lastX : F
  lastY : F
  movementSpeed : F
  windowShouldClose : Bool
deriving DecidableEq

/-- The key states that `glfwGetKey` reports in one frame (`true` for
`GLFW_PRESS`). -/
structure Keys where
  ESCAPE : Bool
  W : Bool
  S : Bool
  A : Bool
  D : Bool
  Q : Bool
  E : Bool
  P : Bool
  O : Bool
deriving DecidableEq

namespace ViewManager

variable {F : Type} [LinearOrderedField F]

/-- The state once `ViewManager::ViewManager` has run: `camera0` is the
object that `new Camera()` built, of which the constructor overwrites
`Position`, `Front`, `Up` and `Zoom`; globals and `static` locals hold their
initialisers. -/
def new (pShaderManager : Option (ShaderManager F)) (camera0 : Camera F) : ViewManager F :=
  { m_pShaderManager := pShaderManager
    g_pCamera :=
      { camera0 with
        Position := ⟨-4, 3, 6⟩
        Front := ⟨5 / 2, -1, -5⟩
        Up := ⟨0, 1, 0⟩
        Zoom := 60 }
    bOrthographicProjection := false
    gDeltaTime := 0
    gLastFrame := 0
    firstMouse := true
    lastX := 400
    lastY := 300
    movementSpeed := 1 / 20
    windowShouldClose := false }

/-- `ViewManager::Mouse_Position_Callback`. The positions are `double`; the
`static` locals `lastX` and `lastY` are `float`, so what is stored in them is
`(float)` of a position, and the two offsets are `(float)` of a difference
taken in `double`. -/
def Mouse_Position_Callback (L : FloatLib F) (xMousePos yMousePos : F) (v : ViewManager F) :
    ViewManager F :=
  let lastX := if v.firstMouse then L.toFloat xMousePos else v.lastX
  let lastY := if v.firstMouse then L.toFloat yMousePos else v.lastY
  let xoffset := L.toFloat (xMousePos - lastX)
  let yoffset := L.toFloat (lastY - yMousePos)
  let sensitivity : F := 1 / 10
  let xoffset := xoffset * sensitivity
  let yoffset := yoffset * sensitivity
  let Yaw := v.g_pCamera.Yaw + xoffset
  let Pitch := v.g_pCamera.Pitch + yoffset
  let Pitch := if Pitch > 89 then 89 else Pitch
  let Pitch := if Pitch < -89 then -89 else Pitch
  let front : glm.vec3 F :=
    ⟨L.cos (glm.radians L Yaw) * L.cos (glm.radians L Pitch),
     L.sin (glm.radians L Pitch),
     L.sin (glm.radians L Yaw) * L.cos (glm.radians L Pitch)⟩
  { v with
    firstMouse := false
    lastX := L.toFloat xMousePos
    lastY := L.toFloat yMousePos
    g_pCamera := { v.g_pCamera with Yaw := Yaw, Pitch := Pitch, Front := glm.normalize L front } }

/-- `ViewManager::ProcessKeyboardEvents`; `k` is what `glfwGetKey` reports
for each key in this frame. -/
def ProcessKeyboardEvents (L : FloatLib F) (k : Keys) (v : ViewManager F) : ViewManager F :=
  let windowShouldClose := if k.ESCAPE then true else v.windowShouldClose
  let velocity : F := 1 / 20
  let Front := v.g_pCamera.Front
  let Up := v.g_pCamera.Up
  let Position := v.g_pCamera.Position
  let Position := if k.W then Position.add (Front.scale velocity) else Position
  let Position := if k.S then Position.sub (Front.scale velocity) else Position
  let Position :=
    if k.A then Position.sub ((glm.normalize L (glm.cross Front Up)).scale velocity)
    else Position
  let Position :=
    if k.D then Position.add ((glm.normalize L (glm.cross Front Up)).scale velocity)
    else Position
  let Position := if k.Q then { Position with y := Position.y + velocity } else Position
  let Position := if k.E then { Position with y := Position.y - velocity } else Position
  let bOrthographicProjection := if k.P then false else v.bOrthographicProjection
  let bOrthographicProjection := if k.O then true else bOrthographicProjection
  { v with
    windowShouldClose := windowShouldClose
    g_pCamera := { v.g_pCamera with Position := Position }
    bOrthographicProjection := bOrthographicProjection }

/-- `ViewManager::Mouse_Scroll_Callback`; `yoffset` is a `double` and enters
as `static_cast<float>(yoffset)`. -/
def Mouse_Scroll_Callback (L : FloatLib F) (_xoffset yoffset : F) (v : ViewManager F) :
    ViewManager F :=
  let movementSpeed := v.movementSpeed + L.toFloat yoffset * (1 / 100)
  let movementSpeed := if movementSpeed < 1 / 100 then 1 / 100 else movementSpeed
  let movementSpeed := if movementSpeed > 1 then 1 else movementSpeed
  { v with movementSpeed := movementSpeed }

/-- The pointer positions of a list delivered to `Mouse_Position_Callback`
one after the other. -/
def pointerMoves (L : FloatLib F) : List (F × F) → ViewManager F → ViewManager F
  | [], v => v
  | p :: ps, v => pointerMoves L ps (Mouse_Position_Callback L p.1 p.2 v)

end ViewManager

/-! ## The frame step of ViewManager -/

namespace glm

variable {F : Type} [LinearOrderedField F]

/-- The value of `glm::ortho(left, right, bottom, top, zNear, zFar)`
(right-handed, depth from -1 to 1, the default of GLM). -/
def ortho (left right bottom top zNear zFar : F) : mat4 F :=
  ⟨⟨2 / (right - left), 0, 0, 0⟩,
   ⟨0, 2 / (top - bottom), 0, 0⟩,
   ⟨0, 0, -(2 / (zFar - zNear)), 0⟩,
   ⟨-((right + left) / (right - left)), -((top + bottom) / (top - bottom)),
     -((zFar + zNear) / (zFar - zNear)), 1⟩⟩

/-- The value of `glm::perspective(fovy, aspect, zNear, zFar)` (right-handed,
depth from -1 to 1, the default of GLM). -/
def perspective (L : FloatLib F) (fovy aspect zNear zFar : F) : mat4 F :=
  let tanHalfFovy := L.tan (fovy / 2)
  ⟨⟨1 / (aspect * tanHalfFovy), 0, 0, 0⟩,
   ⟨0, 1 / tanHalfFovy, 0, 0⟩,
   ⟨0, 0, -((zFar + zNear) / (zFar - zNear)), -1⟩,
   ⟨0, 0, -((2 * zFar * zNear) / (zFar - zNear)), 0⟩⟩

/-- The value of `glm::lookAt(eye, center, up)` (right-handed). -/
def lookAt (L : FloatLib F) (eye center up : vec3 F) : mat4 F :=
  let f := normalize L (center.sub eye)
  let s := normalize L (cross f up)
  let u := cross s f
  ⟨⟨s.x, u.x, -f.x, 0⟩,
   ⟨s.y, u.y, -f.y, 0⟩,
   ⟨s.z, u.z, -f.z, 0⟩,
   ⟨-(dot s eye), -(dot u eye), dot f eye, 1⟩⟩

end glm

/-- Modelled from the spec: `Camera::GetViewMatrix` (camera.h is not among
the sources) is the look-at matrix derived from position, front and up. -/
def Camera.GetViewMatrix {F : Type} [LinearOrderedField F] (L : FloatLib F) (c : Camera F) :
    glm.mat4 F :=
  glm.lookAt L c.Position (c.Position.add c.Front) c.Up

namespace ViewManager

variable {F : Type} [LinearOrderedField F]

/-- The uploads of `ViewManager::SetupSceneLights` on a shader object; the
function reads `g_pCamera` and not its argument. -/
def SetupSceneLights.uploads (L : FloatLib F) (c : Camera F) (sh : ShaderManager F) :
    ShaderManager F :=
  let sh := sh.setVec3Value "light.position" c.Position
  let sh := sh.setVec3Value "light.direction" c.Front
  let sh := sh.setFloatValue "light.cutOff" (L.cos (glm.radians L (25 / 2)))
  let sh := sh.setFloatValue "light.outerCutOff" (L.cos (glm.radians L 15))
  let sh := sh.setVec3Value "light.ambient" ⟨1 / 10, 1 / 10, 1 / 10⟩
  let sh := sh.setVec3Value "light.diffuse" ⟨4 / 5, 4 / 5, 4 / 5⟩
  let sh := sh.setVec3Value "light.specular" ⟨1, 1, 1⟩
  let sh := sh.setFloatValue "light.constant" 1
  let sh := sh.setFloatValue "light.linear" (9 / 100)
  let sh := sh.setFloatValue "light.quadratic" (4 / 125)
  let sh := sh.setVec3Value "pointLights[0].position" ⟨2, 2, 2⟩
  let sh := sh.setVec3Value "pointLights[0].ambient" ⟨1 / 5, 0, 1 / 5⟩
  let sh := sh.setVec3Value "pointLights[0].diffuse" ⟨1 / 2, 0, 1 / 2⟩
  let sh := sh.setVec3Value "pointLights[0].specular" ⟨4 / 5, 0, 4 / 5⟩
  let sh := sh.setFloatValue "pointLights[0].constant" 1
  let sh := sh.setFloatValue "pointLights[0].linear" (9 / 100)
  sh.setFloatValue "pointLights[0].quadratic" (4 / 125)

/-- `ViewManager::SetupSceneLights(camPosition)`. -/
def SetupSceneLights (L : FloatLib F) (_camPosition : glm.vec3 F) (v : ViewManager F) :
    ViewManager F :=
  match v.m_pShaderManager with
  | none => v
  | some sh => { v with m_pShaderManager := some (SetupSceneLights.uploads L v.g_pCamera sh) }

/-- The local `projection` of `PrepareSceneView`, which the function
computes on entry from the state it is called in. -/
def PrepareSceneView.projection (L : FloatLib F) (v : ViewManager F) : glm.mat4 F :=
  if v.bOrthographicProjection then
    let scale : F := 2
    glm.ortho (-scale) scale (-scale) scale (1 / 10) 100
  else
    glm.perspective L (glm.radians L v.g_pCamera.Zoom) (800 / 600) (1 / 10) 100

/-- `ViewManager::PrepareSceneView`. `k` is what `glfwGetKey` reports in this
frame and `time` the `double` that `glfwGetTime` returns, which the
assignment to the `float currentFrame` converts. -/
def PrepareSceneView (L : FloatLib F) (k : Keys) (time : F) (v : ViewManager F) :
    ViewManager F :=
  let projection := PrepareSceneView.projection L v
  let currentFrame := L.toFloat time
  let v := { v with gDeltaTime := currentFrame - v.gLastFrame, gLastFrame := currentFrame }
  let v := ProcessKeyboardEvents L k v
  let view := v.g_pCamera.GetViewMatrix L
  match v.m_pShaderManager with
  | some sh =>
    let sh := sh.setMat4Value "view" view
    let sh := sh.setMat4Value "projection" projection
    let sh := sh.setVec3Value "viewPosition" v.g_pCamera.Position
    SetupSceneLights L v.g_pCamera.Position { v with m_pShaderManager := some sh }
  | none => v

/-- The scroll events of a list delivered to `Mouse_Scroll_Callback` one
after the other. -/
def scrolls (L : FloatLib F) : List (F × F) → ViewManager F → ViewManager F
  | [], v => v
  | e :: es, v => scrolls L es (Mouse_Scroll_Callback L e.1 e.2 v)

end ViewManager

/-! ## The draw sequence of SceneManager -/

/-- The primitive meshes of `ShapeMeshes`. -/
inductive Mesh where
  | Box
  | Plane
  | Sphere
  | Cylinder
deriving DecidableEq

/-- Modelled from the spec: `ShapeMeshes` (ShapeMeshes.h is not among the
sources) is the mesh-drawing interface; the object keeps, for every draw call
it received and oldest first, the mesh and the shader object as it was at the
call, that is the uniform values the draw is made with. -/
structure ShapeMeshes (F : Type) where
  draws : List (Mesh × Option (ShaderManager F))

namespace ShapeMeshes

variable {F : Type}

/-- A draw call for `mesh` made while the shader object is `sh`. -/
def draw (mesh : Mesh) (sh : Option (ShaderManager F)) (m : ShapeMeshes F) : ShapeMeshes F :=
  ⟨m.draws ++ [(mesh, sh)]⟩

/-- `ShapeMeshes::DrawBoxMesh`. -/
def DrawBoxMesh (sh : Option (ShaderManager F)) (m : ShapeMeshes F) : ShapeMeshes F :=
  m.draw Mesh.Box sh

/-- `ShapeMeshes::DrawPlaneMesh`. -/
def DrawPlaneMesh (sh : Option (ShaderManager F)) (m : ShapeMeshes F) : ShapeMeshes F :=
  m.draw Mesh.Plane sh

/-- `ShapeMeshes::DrawSphereMesh`. -/
def DrawSphereMesh (sh : Option (ShaderManager F)) (m : ShapeMeshes F) : ShapeMeshes F :=
  m.draw Mesh.Sphere sh

/-- `ShapeMeshes::DrawCylinderMesh`. -/
def DrawCylinderMesh (sh : Option (ShaderManager F)) (m : ShapeMeshes F) : ShapeMeshes F :=
  m.draw Mesh.Cylinder sh

/-- The value of the uniform `name` with which draw number `i` (from 0) was
made. -/
def uniformAtDraw (m : ShapeMeshes F) (i : Nat) (name : String) : Option (UniformValue F) :=
  match m.draws[i]? with
  | some (_, some sh) => sh.current name
  | _ => none

/-- The mesh of draw number `i` (from 0). -/
def meshAtDraw (m : ShapeMeshes F) (i : Nat) : Option Mesh :=
  (m.draws[i]?).map Prod.fst

end ShapeMeshes

namespace SceneManager

variable {F : Type} [LinearOrderedField F]

/-- `SceneManager::RenderScene`, statement by statement: `s` is the scene
object and `m` the object behind `m_basicMeshes`. The decimal literals of the
source are written as fractions (`0.3f` is `3 / 10`). -/
def RenderScene (L : FloatLib F) (s : SceneManager F) (m : ShapeMeshes F) :
    SceneManager F × ShapeMeshes F :=
  -- the floor plane
  let scaleXYZ : glm.vec3 F := ⟨20, 1, 10⟩
  let XrotationDegrees : F := 0
  let YrotationDegrees : F := 0
  let ZrotationDegrees : F := 0
  let positionXYZ : glm.vec3 F := ⟨0, 0, 0⟩
  let s := SetTransformations L scaleXYZ XrotationDegrees YrotationDegrees ZrotationDegrees
    positionXYZ s
  let s := SetShaderColor 1 1 1 1 s
  let m := m.DrawPlaneMesh s.m_pShaderManager
  -- Placard Base
  let scaleXYZ : glm.vec3 F := ⟨2, 3 / 10, 1⟩
  let XrotationDegrees : F := 0
  let YrotationDegrees : F := 0
  let ZrotationDegrees : F := 0
  let positionXYZ : glm.vec3 F := ⟨0, 1 / 2, -1⟩
  let s := SetTransformations L scaleXYZ XrotationDegrees YrotationDegrees ZrotationDegrees
    positionXYZ s
  let s := SetShaderTexture "darkwood" s
  let s := SetTextureUVScale 2 2 s
  let s := SetTransformations L ⟨1, 1, 1⟩ 0 0 0 ⟨0, 0, 0⟩ s
  let m := m.DrawBoxMesh s.m_pShaderManager
  -- Display back panel
  let scaleXYZ : glm.vec3 F := ⟨2, 2, 1 / 10⟩
  let positionXYZ : glm.vec3 F := ⟨0, 7 / 5, -(1 / 5)⟩
  let s := SetShaderTexture "backplate" s
  let s := SetTextureUVScale 2 2 s
  let s := SetTransformations L ⟨1, 1, 1⟩ 0 0 0 ⟨0, 0, 2⟩ s
  let m := m.DrawBoxMesh s.m_pShaderManager
  -- Placard display name plate
  let scaleXYZ : glm.vec3 F := ⟨6 / 5, 3 / 10, 1 / 20⟩
  let positionXYZ : glm.vec3 F := ⟨0, 1, -(1 / 10)⟩
  let s := SetTransformations L scaleXYZ XrotationDegrees YrotationDegrees ZrotationDegrees
    positionXYZ s
  let s := SetShaderColor 1 0 0 1 s
  let m := m.DrawBoxMesh s.m_pShaderManager
  -- reactor stand
  let s := SetTransformations L ⟨6 / 5, 1 / 10, 6 / 5⟩ 0 0 0 ⟨11 / 10, 1 / 10, 9 / 5⟩ s
  let s := SetShaderColor (9 / 25) (1 / 4) (1 / 5) 1 s
  let m := m.DrawCylinderMesh s.m_pShaderManager
  let s := SetTransformations L ⟨1, 3 / 20, 1⟩ 0 0 0 ⟨11 / 10, 1 / 5, 9 / 5⟩ s
  let s := SetShaderTexture "reactor_tex" s
  let m := m.DrawCylinderMesh s.m_pShaderManager
  let s := SetTransformations L ⟨7 / 10, 1 / 5, 7 / 10⟩ 0 0 0 ⟨11 / 10, 3 / 10, 9 / 5⟩ s
  let s := SetShaderColor (3 / 10) (3 / 10) (3 / 10) 1 s
  let m := m.DrawCylinderMesh s.m_pShaderManager
  let s := SetTransformations L ⟨7 / 20, 7 / 20, 7 / 20⟩ 0 0 0 ⟨11 / 10, 1 / 2, 9 / 5⟩ s
  let s := SetShaderColor 0 (4 / 5) 1 1 s
  let m := m.DrawSphereMesh s.m_pShaderManager
  -- helmet
  let s := SetTransformations L ⟨3 / 10, 1 / 4, 3 / 10⟩ 0 0 0 ⟨8 / 5, 9 / 20, 2 / 5⟩ s
  let s := SetShaderColor (4 / 5) 0 0 1 s
  let m := m.DrawSphereMesh s.m_pShaderManager
  let s := SetTransformations L ⟨1 / 5, 1 / 4, 1 / 100⟩ 0 0 0 ⟨8 / 5, 23 / 50, 69 / 100⟩ s
  let s := SetShaderColor (83 / 100) (69 / 100) (11 / 50) 1 s
  let m := m.DrawBoxMesh s.m_pShaderManager
  let s := SetTransformations L ⟨1 / 20, 1 / 5, 1 / 5⟩ 0 0 0 ⟨9 / 5, 23 / 50, 2 / 5⟩ s
  let s := SetShaderColor (4 / 5) 0 0 1 s
  let m := m.DrawBoxMesh s.m_pShaderManager
  let s := SetTransformations L ⟨1 / 20, 1 / 5, 1 / 5⟩ 0 0 0 ⟨7 / 5, 23 / 50, 2 / 5⟩ s
  let s := SetShaderColor (4 / 5) 0 0 1 s
  let m := m.DrawBoxMesh s.m_pShaderManager
  let s := SetTransformations L ⟨1 / 5, 1 / 20, 1 / 5⟩ 90 0 0 ⟨33 / 20, 3 / 10, 11 / 20⟩ s
  let s := SetShaderColor (1 / 5) (1 / 5) (1 / 5) 1 s
  let m := m.DrawCylinderMesh s.m_pShaderManager
  (s, m)

end SceneManager

/-- The direction of the spec for a yaw and a pitch in degrees:
`(cos(yaw) * cos(pitch), sin(pitch), sin(yaw) * cos(pitch))`. -/
def Spec.Direction {F : Type} [LinearOrderedField F] (L : FloatLib F) (yaw pitch : F) :
    glm.vec3 F :=
  ⟨L.cos (yaw * L.degToRad) * L.cos (pitch * L.degToRad),
   L.sin (pitch * L.degToRad),
   L.sin (yaw * L.degToRad) * L.cos (pitch * L.degToRad)⟩

/-- The value that the uniform `name` holds in the shader object of the view
manager: that of the most recent upload under the name. -/
def ViewManager.uploaded {F : Type} (v : ViewManager F) (name : String) :
    Option (UniformValue F) :=
  match v.m_pShaderManager with
  | some sh => sh.current name
  | none => none

/-! ## Concrete data for the closed statements -/

/-- A rational stand-in for the math library, for running the definitions on
rational inputs: Taylor polynomials for the trigonometric functions, `355 /
113` for pi, one Newton step from 1 for the inverse square root, and a
conversion to `float` that keeps every rational as it is. -/
def ratLib : FloatLib ℚ where
  cos := fun a => 1 - a ^ 2 / 2 + a ^ 4 / 24
  sin := fun a => a - a ^ 3 / 6 + a ^ 5 / 120
  tan := fun a => a + a ^ 3 / 3 + 2 * a ^ 5 / 15
  inversesqrt := fun d => (3 - d) / 2
  degToRad := 355 / 113 / 180
  toFloat := fun q => q

/-- The binary exponent at which IEEE 754 single precision represents a
rational `q`: the `e` with `2 ^ e <= |q| < 2 ^ (e + 1)`, and -126 for the
subnormal range below. -/
def float32.exponent (q : ℚ) : Int := max (Int.log 2 |q|) (-126)

/-- The conversion of a `double` to `float` on the rationals: `q` rounded to
the nearest multiple of `2 ^ (e - 23)` for its exponent `e` (a significand of
24 bits), a tie going to the even multiple. Magnitudes of `2 ^ 128` and
above, which the conversion takes to infinity, are outside the model. -/
def float32 (q : ℚ) : ℚ :=
  let ulp : ℚ := 2 ^ (float32.exponent q - 23)
  let n : Int := ⌊q / ulp⌋
  let r : ℚ := q / ulp - n
  let m : Int :=
    if r < 1 / 2 then n else if 1 / 2 < r then n + 1 else if n % 2 = 0 then n else n + 1
  m * ulp

/-- The stand-in `ratLib` with the single-precision rounding `float32` for
the conversion to `float`. -/
def f32Lib : FloatLib ℚ := { ratLib with toFloat := float32 }

/-- A scene object with an empty texture table, no material and a shader
object that has received no upload. -/
def emptyScene : SceneManager ℚ where
  m_pShaderManager := some ⟨[]⟩
  m_textureIDs := fun _ => ⟨0, ""⟩
  m_loadedTextures := 0
  m_objectMaterials := []

/-- A call for a decoded 64 x 64 RGB image under the tag "a". -/
def loadA : TextureLoad := ⟨some ⟨64, 64, 3⟩, 1, "a"⟩

/-- A call for a decoded 32 x 32 RGBA image under the tag "b". -/
def loadB : TextureLoad := ⟨some ⟨32, 32, 4⟩, 2, "b"⟩

/-- A decoded 8 x 8 image with one channel (grayscale). -/
def grayImage : STBImage := ⟨8, 8, 1⟩

/-- A material under the tag "gold". -/
def goldMaterial : OBJECT_MATERIAL ℚ where
  ambientColor := ⟨1 / 5, 1 / 5, 1 / 10⟩
  ambientStrength := 2 / 5
  diffuseColor := ⟨3 / 10, 1 / 5, 1 / 10⟩
  specularColor := ⟨3 / 5, 1 / 2, 2 / 5⟩
  shininess := 22
  tag := "gold"

/-- A material value standing for what a caller holds before a lookup. -/
def callerMaterial : OBJECT_MATERIAL ℚ where
  ambientColor := ⟨7, 7, 7⟩
  ambientStrength := 7
  diffuseColor := ⟨8, 8, 8⟩
  specularColor := ⟨9, 9, 9⟩
  shininess := 5
  tag := "caller"

/-- The scene object `emptyScene` with the one material `goldMaterial`. -/
def goldScene : SceneManager ℚ := { emptyScene with m_objectMaterials := [goldMaterial] }

/-- A camera object with yaw -90 and pitch 0, standing for what
`new Camera()` builds. -/
def defaultCamera : Camera ℚ where
  Position := ⟨0, 0, 0⟩
  Front := ⟨0, 0, -1⟩
  Up := ⟨0, 1, 0⟩
  Yaw := -90
  Pitch := 0
  Zoom := 45

/-- Sixteen calls under the tag "a" followed by one under the tag "b",
every one for an image that decodes to RGB or RGBA. -/
def seventeenLoads : List TextureLoad := List.replicate 16 loadA ++ [loadB]

/-- The state after the constructor with a shader object that has
received no upload and the camera `defaultCamera`. -/
def startView : ViewManager ℚ := ViewManager.new (some ⟨[]⟩) defaultCamera

/-- No key pressed. -/
def noKeys : Keys := ⟨false, false, false, false, false, false, false, false, false⟩

/-- The key O pressed alone. -/
def keyO : Keys := { noKeys with O := true }

/-- The key P pressed alone. -/
def keyP : Keys := { noKeys with P := true }

/-- The three calls of `LoadSceneTextures`, each for an image that decodes
to RGB or RGBA. -/
def sceneLoads : List TextureLoad :=
  [⟨some ⟨512, 512, 4⟩, 1, "reactor_tex"⟩, ⟨some ⟨512, 512, 3⟩, 2, "darkwood"⟩,
   ⟨some ⟨640, 480, 4⟩, 3, "backplate"⟩]

/-- The scene object after `LoadSceneTextures` on the empty scene. -/
def loadedScene : SceneManager ℚ := (CreateGLTextureSeq sceneLoads emptyScene).2

/-! ## The texture table -/

section TextureTable

variable {F : Type}

/-- The returned `bool` of `CreateGLTexture` is decided by the decoded image
alone. -/
theorem CreateGLTexture_fst (image : Option STBImage) (textureID : Nat) (tag : String)
    (s : SceneManager F) :
    (SceneManager.CreateGLTexture image textureID tag s).1 = true ↔
      ∃ img, image = some img ∧ (img.colorChannels = 3 ∨ img.colorChannels = 4) := by
  unfold SceneManager.CreateGLTexture
  cases image with
  | none => simp
  | some img => by_cases h : img.colorChannels = 3 ∨ img.colorChannels = 4 <;> simp [h]

/-- A call of `CreateGLTexture` that returns `true` writes the cell at the
old count and adds one to the count. -/
theorem CreateGLTexture_true (image : Option STBImage) (textureID : Nat) (tag : String)
    (s : SceneManager F)
    (h : (SceneManager.CreateGLTexture image textureID tag s).1 = true) :
    (SceneManager.CreateGLTexture image textureID tag s).2.m_loadedTextures
        = s.m_loadedTextures + 1
      ∧ (SceneManager.CreateGLTexture image textureID tag s).2.m_textureIDs s.m_loadedTextures
        = ⟨textureID, tag⟩
      ∧ ∀ i, i ≠ s.m_loadedTextures →
        (SceneManager.CreateGLTexture image textureID tag s).2.m_textureIDs i
          = s.m_textureIDs i := by
  obtain ⟨img, rfl, hc⟩ := (CreateGLTexture_fst image textureID tag s).1 h
  simp only [SceneManager.CreateGLTexture, if_pos hc]
  refine ⟨by simp, by simp, ?_⟩
  intro i hi
  simp [hi]

/-- A call of `CreateGLTexture` that returns `false` returns the object it
was given. -/
theorem CreateGLTexture_false (image : Option STBImage) (textureID : Nat) (tag : String)
    (s : SceneManager F)
    (h : (SceneManager.CreateGLTexture image textureID tag s).1 = false) :
    (SceneManager.CreateGLTexture image textureID tag s).2 = s := by
  unfold SceneManager.CreateGLTexture at h ⊢
  cases image with
  | none => rfl
  | some img =>
    by_cases hc : img.colorChannels = 3 ∨ img.colorChannels = 4
    · simp [hc] at h
    · simp [hc]

/-- The count after a sequence of calls is the count before plus the number
of calls that returned `true`. -/
theorem CreateGLTextureSeq_count (cs : List TextureLoad) (s : SceneManager F) :
    (CreateGLTextureSeq cs s).2.m_loadedTextures
      = s.m_loadedTextures + (CreateGLTextureSeq cs s).1.count true := by
  induction cs generalizing s with
  | nil => simp [CreateGLTextureSeq]
  | cons c cs ih =>
    simp only [CreateGLTextureSeq]
    rw [ih]
    cases hr : (SceneManager.CreateGLTexture c.image c.textureID c.tag s).1
    · rw [CreateGLTexture_false _ _ _ _ hr]
      simp
    · rw [(CreateGLTexture_true _ _ _ _ hr).1]
      simp
      omega

/-- A sequence of calls leaves the cells below the starting count as they
were. -/
theorem CreateGLTextureSeq_below (cs : List TextureLoad) (s : SceneManager F) (i : Nat)
    (hi : i < s.m_loadedTextures) :
    (CreateGLTextureSeq cs s).2.m_textureIDs i = s.m_textureIDs i := by
  induction cs generalizing s with
  | nil => simp [CreateGLTextureSeq]
  | cons c cs ih =>
    simp only [CreateGLTextureSeq]
    cases hr : (SceneManager.CreateGLTexture c.image c.textureID c.tag s).1
    · rw [CreateGLTexture_false _ _ _ _ hr]
      exact ih s hi
    · obtain ⟨h1, _, h3⟩ := CreateGLTexture_true _ _ _ _ hr
      rw [ih _ (by omega), h3 i (by omega)]

/-- Every cell between the starting count and the final count holds the tag
of one of the calls. -/
theorem CreateGLTextureSeq_tags (cs : List TextureLoad) (s : SceneManager F) (i : Nat)
    (hlo : s.m_loadedTextures ≤ i) (hhi : i < (CreateGLTextureSeq cs s).2.m_loadedTextures) :
    ((CreateGLTextureSeq cs s).2.m_textureIDs i).tag ∈ cs.map TextureLoad.tag := by
  induction cs generalizing s with
  | nil => simp [CreateGLTextureSeq] at hhi; omega
  | cons c cs ih =>
    simp only [CreateGLTextureSeq] at hhi ⊢
    cases hr : (SceneManager.CreateGLTexture c.image c.textureID c.tag s).1
    · rw [CreateGLTexture_false _ _ _ _ hr] at hhi ⊢
      exact List.mem_cons_of_mem _ (ih s hlo hhi)
    · obtain ⟨h1, h2, _⟩ := CreateGLTexture_true _ _ _ _ hr
      by_cases hi : i = s.m_loadedTextures
      · subst hi
        rw [CreateGLTextureSeq_below _ _ _ (by omega), h2]
        simp
      · exact List.mem_cons_of_mem _ (ih _ (by omega) hhi)

/-- A sequence of calls split in two. -/
theorem CreateGLTextureSeq_append (a b : List TextureLoad) (s : SceneManager F) :
    CreateGLTextureSeq (a ++ b) s
      = ((CreateGLTextureSeq a s).1 ++ (CreateGLTextureSeq b (CreateGLTextureSeq a s).2).1,
         (CreateGLTextureSeq b (CreateGLTextureSeq a s).2).2) := by
  induction a generalizing s with
  | nil => simp [CreateGLTextureSeq]
  | cons c cs ih => simp [CreateGLTextureSeq, ih]

/-- The loop of `FindTextureSlot` stops at the first cell that holds the
tag. -/
theorem FindTextureSlot_loop_found (ids : Nat → TEXTURE_INFO) (tag : String) (j : Nat) :
    ∀ (n index : Nat), j < n →
      (∀ i, index ≤ i → i < index + j → (ids i).tag ≠ tag) →
      (ids (index + j)).tag = tag →
      SceneManager.FindTextureSlot.loop ids tag n index = ((index + j : Nat) : Int) := by
  induction j with
  | zero =>
    intro n index hn _ hj
    obtain ⟨m, rfl⟩ : ∃ m, n = m + 1 := ⟨n - 1, by omega⟩
    simp only [SceneManager.FindTextureSlot.loop]
    rw [if_pos (by simpa using hj)]
    simp
  | succ j ih =>
    intro n index hn hne hj
    obtain ⟨m, rfl⟩ : ∃ m, n = m + 1 := ⟨n - 1, by omega⟩
    simp only [SceneManager.FindTextureSlot.loop]
    rw [if_neg (hne index (le_refl _) (by omega))]
    rw [ih m (index + 1) (by omega) (fun i h1 h2 => hne i (by omega) (by omega))
      (by rw [← hj]; congr 2; omega)]
    congr 1
    omega

/-- The loop of `FindTextureSlot` returns -1 when no cell it visits holds the
tag. -/
theorem FindTextureSlot_loop_miss (ids : Nat → TEXTURE_INFO) (tag : String) :
    ∀ (n index : Nat), (∀ i, index ≤ i → i < index + n → (ids i).tag ≠ tag) →
      SceneManager.FindTextureSlot.loop ids tag n index = -1 := by
  intro n
  induction n with
  | zero => intro index _; rfl
  | succ n ih =>
    intro index hne
    simp only [SceneManager.FindTextureSlot.loop]
    rw [if_neg (hne index (le_refl _) (by omega))]
    exact ih (index + 1) (fun i h1 h2 => hne i (by omega) (by omega))

/-- The loop of `FindTextureID` returns -1 when no cell it visits holds the
tag. -/
theorem FindTextureID_loop_miss (ids : Nat → TEXTURE_INFO) (tag : String) :
    ∀ (n index : Nat), (∀ i, index ≤ i → i < index + n → (ids i).tag ≠ tag) →
      SceneManager.FindTextureID.loop ids tag n index = -1 := by
  intro n
  induction n with
  | zero => intro index _; rfl
  | succ n ih =>
    intro index hne
    simp only [SceneManager.FindTextureID.loop]
    rw [if_neg (hne index (le_refl _) (by omega))]
    exact ih (index + 1) (fun i h1 h2 => hne i (by omega) (by omega))

/-- C1. Starting from an empty table, after any sequence of `CreateGLTexture`
calls with pairwise distinct tags that stays within the capacity of the
table, `FindTextureSlot` of the tag of a call that returned `true` is the
number of calls before it that returned `true`. -/
theorem C1_FindTextureSlot_registration_order (s0 : SceneManager F)
    (pre post : List TextureLoad) (c : TextureLoad)
    (hempty : s0.m_loadedTextures = 0)
    (hdistinct : ((pre ++ c :: post).map TextureLoad.tag).Nodup)
    (_hcap : (CreateGLTextureSeq (pre ++ c :: post) s0).1.count true ≤ MAX_TEXTURES)
    (hok : (SceneManager.CreateGLTexture c.image c.textureID c.tag
      (CreateGLTextureSeq pre s0).2).1 = true) :
    SceneManager.FindTextureSlot (CreateGLTextureSeq (pre ++ c :: post) s0).2 c.tag
      = (((CreateGLTextureSeq pre s0).1.count true : Nat) : Int) := by
  have hk : (CreateGLTextureSeq pre s0).2.m_loadedTextures = (CreateGLTextureSeq pre s0).1.count true := by
    rw [CreateGLTextureSeq_count, hempty, Nat.zero_add]
  obtain ⟨h1, h2, h3⟩ := CreateGLTexture_true _ _ _ _ hok
  have hfinal : (CreateGLTextureSeq (pre ++ c :: post) s0).2
      = (CreateGLTextureSeq post (SceneManager.CreateGLTexture c.image c.textureID c.tag
          (CreateGLTextureSeq pre s0).2).2).2 := by
    rw [CreateGLTextureSeq_append]
    simp [CreateGLTextureSeq]
  have hcount := CreateGLTextureSeq_count post
    (SceneManager.CreateGLTexture c.image c.textureID c.tag (CreateGLTextureSeq pre s0).2).2
  have hnotin : c.tag ∉ pre.map TextureLoad.tag := by
    intro hmem
    rw [List.map_append, List.map_cons] at hdistinct
    exact (List.nodup_append.1 hdistinct).2.2 hmem (List.mem_cons_self _ _)
  unfold SceneManager.FindTextureSlot
  rw [hfinal]
  have := FindTextureSlot_loop_found
    (CreateGLTextureSeq post (SceneManager.CreateGLTexture c.image c.textureID c.tag
      (CreateGLTextureSeq pre s0).2).2).2.m_textureIDs c.tag
    ((CreateGLTextureSeq pre s0).1.count true)
    (CreateGLTextureSeq post (SceneManager.CreateGLTexture c.image c.textureID c.tag
      (CreateGLTextureSeq pre s0).2).2).2.m_loadedTextures 0 (by omega) ?_ ?_
  · simpa using this
  · intro i _ hi heq
    rw [CreateGLTextureSeq_below _ _ _ (by omega), h3 i (by omega)] at heq
    apply hnotin
    rw [← heq]
    exact CreateGLTextureSeq_tags pre s0 i (by omega) (by omega)
  · rw [Nat.zero_add, CreateGLTextureSeq_below _ _ _ (by omega), ← hk, h2]

/-- C1, at the spec's scenario: "a" then "b" are registered in an empty
table; "a" is found in unit 0 and "b" in unit 1. -/
theorem C1_witness_a_then_b :
    SceneManager.FindTextureSlot (CreateGLTextureSeq [loadA, loadB] emptyScene).2 "a" = 0
      ∧ SceneManager.FindTextureSlot (CreateGLTextureSeq [loadA, loadB] emptyScene).2 "b" = 1 :=
  ⟨C1_FindTextureSlot_registration_order emptyScene [] [loadB] loadA rfl (by decide)
      (by decide) rfl,
   C1_FindTextureSlot_registration_order emptyScene [loadA] [] loadB rfl (by decide)
      (by decide) rfl⟩

/-- C2. Whatever the table, a call of `CreateGLTexture` whose decode failed,
or whose decoded image has a channel count other than 3 and 4, returns
`false` and leaves the object, so the cells of the table and its count, as
they were. -/
theorem C2_CreateGLTexture_failure_keeps_table (image : Option STBImage) (textureID : Nat)
    (tag : String) (s : SceneManager F)
    (hfail : image = none
      ∨ ∃ img, image = some img ∧ img.colorChannels ≠ 3 ∧ img.colorChannels ≠ 4) :
    (SceneManager.CreateGLTexture image textureID tag s).1 = false
      ∧ (SceneManager.CreateGLTexture image textureID tag s).2.m_textureIDs = s.m_textureIDs
      ∧ (SceneManager.CreateGLTexture image textureID tag s).2.m_loadedTextures
          = s.m_loadedTextures
      ∧ (SceneManager.CreateGLTexture image textureID tag s).2 = s := by
  have hres : (SceneManager.CreateGLTexture image textureID tag s).1 = false := by
    cases hr : (SceneManager.CreateGLTexture image textureID tag s).1
    · rfl
    · obtain ⟨img, himg, hc⟩ := (CreateGLTexture_fst image textureID tag s).1 hr
      rcases hfail with hnone | ⟨img2, himg2, h3, h4⟩
      · rw [hnone] at himg
        cases himg
      · rw [himg2] at himg
        cases himg
        rcases hc with hc | hc
        · exact absurd hc h3
        · exact absurd hc h4
  have hsame := CreateGLTexture_false image textureID tag s hres
  exact ⟨hres, by rw [hsame], by rw [hsame], hsame⟩

/-- C2, at the spec's scenario: a grayscale image offered to a table of two
entries is refused and the table still has two entries. -/
theorem C2_witness_grayscale :
    (SceneManager.CreateGLTexture (some grayImage) 7 "gray"
        (CreateGLTextureSeq [loadA, loadB] emptyScene).2).1 = false
      ∧ (SceneManager.CreateGLTexture (some grayImage) 7 "gray"
        (CreateGLTextureSeq [loadA, loadB] emptyScene).2).2.m_loadedTextures = 2 :=
  ⟨(C2_CreateGLTexture_failure_keeps_table (some grayImage) 7 "gray"
      (CreateGLTextureSeq [loadA, loadB] emptyScene).2
      (Or.inr ⟨grayImage, rfl, by decide, by decide⟩)).1,
   (C2_CreateGLTexture_failure_keeps_table (some grayImage) 7 "gray"
      (CreateGLTextureSeq [loadA, loadB] emptyScene).2
      (Or.inr ⟨grayImage, rfl, by decide, by decide⟩)).2.2.1.trans rfl⟩

/-- C3. Whatever the table, for a tag that no registered entry holds,
`FindTextureSlot` and `FindTextureID` both return -1; they still do after a
call of `CreateGLTexture` for that tag that returned `false`. -/
theorem C3_lookup_miss_returns_sentinel (s : SceneManager F) (tag : String)
    (hmiss : ∀ i, i < s.m_loadedTextures → (s.m_textureIDs i).tag ≠ tag) :
    SceneManager.FindTextureSlot s tag = -1
      ∧ SceneManager.FindTextureID s tag = -1
      ∧ ∀ (image : Option STBImage) (textureID : Nat),
          (SceneManager.CreateGLTexture image textureID tag s).1 = false →
          SceneManager.FindTextureSlot
              (SceneManager.CreateGLTexture image textureID tag s).2 tag = -1
            ∧ SceneManager.FindTextureID
              (SceneManager.CreateGLTexture image textureID tag s).2 tag = -1 := by
  have hslot : SceneManager.FindTextureSlot s tag = -1 :=
    FindTextureSlot_loop_miss _ _ _ _ (fun i _ hi => hmiss i (by omega))
  have hid : SceneManager.FindTextureID s tag = -1 :=
    FindTextureID_loop_miss _ _ _ _ (fun i _ hi => hmiss i (by omega))
  refine ⟨hslot, hid, ?_⟩
  intro image textureID hfalse
  rw [CreateGLTexture_false image textureID tag s hfalse]
  exact ⟨hslot, hid⟩

/-- C3, at the spec's scenario: with "a" and "b" registered, the tag "c" is
found by neither lookup, also after its own load failed. -/
theorem C3_witness_unregistered_c :
    SceneManager.FindTextureSlot (CreateGLTextureSeq [loadA, loadB] emptyScene).2 "c" = -1
      ∧ SceneManager.FindTextureID (CreateGLTextureSeq [loadA, loadB] emptyScene).2 "c" = -1
      ∧ SceneManager.FindTextureSlot
          (SceneManager.CreateGLTexture none 3 "c"
            (CreateGLTextureSeq [loadA, loadB] emptyScene).2).2 "c" = -1 :=
  have h := C3_lookup_miss_returns_sentinel (CreateGLTextureSeq [loadA, loadB] emptyScene).2 "c"
    (by decide)
  ⟨h.1, h.2.1, (h.2.2 none 3 rfl).1⟩

end TextureTable

/-! ## Materials -/

section Materials

variable {F : Type}

/-- The loop of `FindMaterial` leaves `bFound` false and the caller's
material as it was when no entry has the tag. -/
theorem FindMaterial_loop_miss (tag : String) (material : OBJECT_MATERIAL F)
    (mats : List (OBJECT_MATERIAL F)) (hmiss : ∀ m ∈ mats, m.tag ≠ tag) :
    SceneManager.FindMaterial.loop tag material mats = (false, material) := by
  induction mats with
  | nil => rfl
  | cons m mats ih =>
    simp only [SceneManager.FindMaterial.loop]
    rw [if_neg (hmiss m (List.mem_cons_self _ _))]
    exact ih (fun m2 h2 => hmiss m2 (List.mem_cons_of_mem _ h2))

/-- On a non-empty list in which no entry has the tag, `FindMaterial`
returns `true` and the caller's material. -/
theorem FindMaterial_nonempty_miss (s : SceneManager F) (tag : String)
    (material : OBJECT_MATERIAL F) (hne : s.m_objectMaterials ≠ [])
    (hmiss : ∀ m ∈ s.m_objectMaterials, m.tag ≠ tag) :
    SceneManager.FindMaterial s tag material = (true, material) := by
  unfold SceneManager.FindMaterial
  rw [if_neg (by simpa using hne), FindMaterial_loop_miss tag material _ hmiss]

/-- C4. `FindMaterial` returns `false` exactly when the material list is
empty; on a non-empty list in which no entry has the tag it returns `true`
and the caller's material is what it was. -/
theorem C4_FindMaterial_true_unless_empty (s : SceneManager F) (tag : String)
    (material : OBJECT_MATERIAL F) :
    ((SceneManager.FindMaterial s tag material).1 = false ↔ s.m_objectMaterials = [])
      ∧ (s.m_objectMaterials ≠ [] → (∀ m ∈ s.m_objectMaterials, m.tag ≠ tag) →
          SceneManager.FindMaterial s tag material = (true, material)) := by
  constructor
  · unfold SceneManager.FindMaterial
    by_cases h : s.m_objectMaterials = []
    · simp [h]
    · simp [h]
  · exact FindMaterial_nonempty_miss s tag material

/-- C4, on concrete lists: the empty list gives `false`; the list holding
"gold" asked for "wood" gives `true` and the caller's material back. -/
theorem C4_witness_gold_wood :
    (SceneManager.FindMaterial emptyScene "wood" callerMaterial).1 = false
      ∧ SceneManager.FindMaterial goldScene "wood" callerMaterial = (true, callerMaterial) :=
  ⟨(C4_FindMaterial_true_unless_empty emptyScene "wood" callerMaterial).1.2 rfl,
   (C4_FindMaterial_true_unless_empty goldScene "wood" callerMaterial).2 (by decide)
      (by decide)⟩

/-- C5, what the code does: on a non-empty material list in which no entry
has the tag, `SetShaderMaterial` uploads all five material uniforms, with
the members of its uninitialised local `material`. -/
theorem C5_SetShaderMaterial_uploads_on_miss (s : SceneManager F) (sh : ShaderManager F)
    (tag : String) (local0 : OBJECT_MATERIAL F)
    (hsh : s.m_pShaderManager = some sh)
    (hne : s.m_objectMaterials ≠ [])
    (hmiss : ∀ m ∈ s.m_objectMaterials, m.tag ≠ tag) :
    (SceneManager.SetShaderMaterial tag local0 s).map (fun r => r.m_pShaderManager)
      = some (some ⟨sh.uploads ++
          [("material.ambientColor", UniformValue.vec3 local0.ambientColor),
           ("material.ambientStrength", UniformValue.float local0.ambientStrength),
           ("material.diffuseColor", UniformValue.vec3 local0.diffuseColor),
           ("material.specularColor", UniformValue.vec3 local0.specularColor),
           ("material.shininess", UniformValue.float local0.shininess)]⟩) := by
  have hlen : s.m_objectMaterials.length > 0 := List.length_pos.2 hne
  have hfind := FindMaterial_nonempty_miss s tag local0 hne hmiss
  simp [SceneManager.SetShaderMaterial, hlen, hfind, hsh, ShaderManager.setVec3Value,
    ShaderManager.setFloatValue]

/-- C5, at the failing input: the list holds "gold", the tag asked for is
"wood", the shader object has received nothing; afterwards it holds five
uploads, so the call was not a no-op. -/
theorem C5_failing_input_gold_wood :
    (SceneManager.SetShaderMaterial "wood" callerMaterial goldScene).map
        (fun r => r.m_pShaderManager)
      = some (some ⟨
          [("material.ambientColor", UniformValue.vec3 ⟨7, 7, 7⟩),
           ("material.ambientStrength", UniformValue.float 7),
           ("material.diffuseColor", UniformValue.vec3 ⟨8, 8, 8⟩),
           ("material.specularColor", UniformValue.vec3 ⟨9, 9, 9⟩),
           ("material.shininess", UniformValue.float 5)]⟩)
      ∧ (SceneManager.SetShaderMaterial "wood" callerMaterial goldScene).map
        (fun r => r.m_pShaderManager) ≠ some goldScene.m_pShaderManager :=
  have h := C5_SetShaderMaterial_uploads_on_miss goldScene ⟨[]⟩ "wood" callerMaterial rfl
    (by decide) (by decide)
  ⟨h, by rw [h]; decide⟩

end Materials

/-! ## The model matrix -/

section ModelMatrix

variable {F : Type} [LinearOrderedField F]

/-- The product of two `mat4` is the matrix product. -/
theorem mat4_mul_toMatrix (a b : glm.mat4 F) :
    (a * b).toMatrix = a.toMatrix * b.toMatrix := by
  show (glm.mat4.mul a b).toMatrix = a.toMatrix * b.toMatrix
  ext i j
  rw [Matrix.mul_apply, Fin.sum_univ_four]
  simp only [glm.mat4.toMatrix, glm.mat4.mul, glm.vec4.add, glm.vec4.scale]
  fin_cases i <;> fin_cases j <;> rfl

/-- The matrix of `glm::translate(v)`. -/
theorem translate_toMatrix (v : glm.vec3 F) :
    (glm.translate v).toMatrix = Spec.Translation v := by
  have h : glm.translate v = ⟨⟨1, 0, 0, 0⟩, ⟨0, 1, 0, 0⟩, ⟨0, 0, 1, 0⟩, ⟨v.x, v.y, v.z, 1⟩⟩ := by
    simp [glm.translate, glm.translateM, glm.mat4.identity, glm.vec4.add, glm.vec4.scale]
  rw [h]
  simp only [glm.mat4.toMatrix, Spec.Translation]

/-- The matrix of `glm::scale(v)`. -/
theorem scale_toMatrix (v : glm.vec3 F) :
    (glm.scale v).toMatrix = Spec.Scale v := by
  have h : glm.scale v = ⟨⟨v.x, 0, 0, 0⟩, ⟨0, v.y, 0, 0⟩, ⟨0, 0, v.z, 0⟩, ⟨0, 0, 0, 1⟩⟩ := by
    simp [glm.scale, glm.scaleM, glm.mat4.identity, glm.vec4.scale]
  rw [h]
  simp only [glm.mat4.toMatrix, Spec.Scale]

/-- The matrix of `glm::rotate(angle, (1, 0, 0))`. -/
theorem rotate_x_toMatrix (L : FloatLib F) (hone : L.inversesqrt 1 = 1) (angle : F) :
    (glm.rotate L angle ⟨1, 0, 0⟩).toMatrix = Spec.RotationX (L.cos angle) (L.sin angle) := by
  have h : glm.rotate L angle ⟨1, 0, 0⟩
      = ⟨⟨1, 0, 0, 0⟩, ⟨0, L.cos angle, L.sin angle, 0⟩, ⟨0, -L.sin angle, L.cos angle, 0⟩,
          ⟨0, 0, 0, 1⟩⟩ := by
    simp [glm.rotate, glm.rotateM, glm.normalize, glm.dot, glm.mat4.identity, glm.vec4.add,
      glm.vec4.scale, glm.vec3.scale, hone]
  rw [h]
  simp only [glm.mat4.toMatrix, Spec.RotationX]

/-- The matrix of `glm::rotate(angle, (0, 1, 0))`. -/
theorem rotate_y_toMatrix (L : FloatLib F) (hone : L.inversesqrt 1 = 1) (angle : F) :
    (glm.rotate L angle ⟨0, 1, 0⟩).toMatrix = Spec.RotationY (L.cos angle) (L.sin angle) := by
  have h : glm.rotate L angle ⟨0, 1, 0⟩
      = ⟨⟨L.cos angle, 0, -L.sin angle, 0⟩, ⟨0, 1, 0, 0⟩, ⟨L.sin angle, 0, L.cos angle, 0⟩,
          ⟨0, 0, 0, 1⟩⟩ := by
    simp [glm.rotate, glm.rotateM, glm.normalize, glm.dot, glm.mat4.identity, glm.vec4.add,
      glm.vec4.scale, glm.vec3.scale, hone]
  rw [h]
  simp only [glm.mat4.toMatrix, Spec.RotationY]

/-- The matrix of `glm::rotate(angle, (0, 0, 1))`. -/
theorem rotate_z_toMatrix (L : FloatLib F) (hone : L.inversesqrt 1 = 1) (angle : F) :
    (glm.rotate L angle ⟨0, 0, 1⟩).toMatrix = Spec.RotationZ (L.cos angle) (L.sin angle) := by
  have h : glm.rotate L angle ⟨0, 0, 1⟩
      = ⟨⟨L.cos angle, L.sin angle, 0, 0⟩, ⟨-L.sin angle, L.cos angle, 0, 0⟩, ⟨0, 0, 1, 0⟩,
          ⟨0, 0, 0, 1⟩⟩ := by
    simp [glm.rotate, glm.rotateM, glm.normalize, glm.dot, glm.mat4.identity, glm.vec4.add,
      glm.vec4.scale, glm.vec3.scale, hone]
  rw [h]
  simp only [glm.mat4.toMatrix, Spec.RotationZ]

/-- The matrix that `SetTransformations` computes is the spec's product. -/
theorem modelView_toMatrix (L : FloatLib F) (hone : L.inversesqrt 1 = 1)
    (scaleXYZ : glm.vec3 F) (rx ry rz : F) (positionXYZ : glm.vec3 F) :
    (SceneManager.modelView L scaleXYZ rx ry rz positionXYZ).toMatrix
      = Spec.Model L scaleXYZ rx ry rz positionXYZ := by
  simp only [SceneManager.modelView, Spec.Model, mat4_mul_toMatrix, translate_toMatrix,
    scale_toMatrix, rotate_x_toMatrix L hone, rotate_y_toMatrix L hone,
    rotate_z_toMatrix L hone, glm.radians]

/-- The spec's rotation matrices for an angle with cosine 1 and sine 0 are
the identity. -/
theorem Spec_rotation_zero :
    Spec.RotationX (1 : F) 0 = 1 ∧ Spec.RotationZ (1 : F) 0 = 1 := by
  constructor <;>
  · ext i j
    simp only [Spec.RotationX, Spec.RotationZ, neg_zero]
    fin_cases i <;> fin_cases j <;> rfl

/-- C6. With a shader object in place, `SetTransformations` makes one upload,
under the name "model", of a matrix that is Translation(position) x
RotationX x RotationY x RotationZ x Scale(scale) in that order, the angles
taken in degrees; for scale (2, 1, 1), angles (0, 90, 0) and position
(1, 0, 0) this is T(1, 0, 0) x Ry(90 degrees) x Sc(2, 1, 1), the library's
cosine and sine of 0 being 1 and 0. -/
theorem C6_SetTransformations_model_matrix (L : FloatLib F) (scaleXYZ : glm.vec3 F)
    (rx ry rz : F) (positionXYZ : glm.vec3 F) (s : SceneManager F) (sh : ShaderManager F)
    (hsh : s.m_pShaderManager = some sh) (hone : L.inversesqrt 1 = 1) :
    (SceneManager.SetTransformations L scaleXYZ rx ry rz positionXYZ s).m_pShaderManager
        = some ⟨sh.uploads ++ [("model",
            UniformValue.mat4 (SceneManager.modelView L scaleXYZ rx ry rz positionXYZ))]⟩
      ∧ (SceneManager.modelView L scaleXYZ rx ry rz positionXYZ).toMatrix
        = Spec.Translation positionXYZ
          * Spec.RotationX (L.cos (rx * L.degToRad)) (L.sin (rx * L.degToRad))
          * Spec.RotationY (L.cos (ry * L.degToRad)) (L.sin (ry * L.degToRad))
          * Spec.RotationZ (L.cos (rz * L.degToRad)) (L.sin (rz * L.degToRad))
          * Spec.Scale scaleXYZ
      ∧ (L.cos 0 = 1 → L.sin 0 = 0 →
          (SceneManager.modelView L ⟨2, 1, 1⟩ 0 90 0 ⟨1, 0, 0⟩).toMatrix
            = Spec.Translation ⟨1, 0, 0⟩
              * Spec.RotationY (L.cos (90 * L.degToRad)) (L.sin (90 * L.degToRad))
              * Spec.Scale ⟨2, 1, 1⟩) := by
  refine ⟨?_, ?_, ?_⟩
  · simp [SceneManager.SetTransformations, hsh, ShaderManager.setMat4Value, g_ModelName]
  · rw [modelView_toMatrix L hone]
    rfl
  · intro hc hs
    rw [modelView_toMatrix L hone]
    simp only [Spec.Model, zero_mul, hc, hs, Spec_rotation_zero.1, Spec_rotation_zero.2,
      mul_one]

/-- C6, at the spec's example over the real numbers with the real cosine,
sine and inverse square root: the uploaded matrix is T(1, 0, 0) x Ry x
Sc(2, 1, 1) with cosine 0 and sine 1 in Ry. -/
theorem C6_witness_quarter_turn :
    (SceneManager.modelView
        (⟨Real.cos, Real.sin, Real.tan, fun d => (Real.sqrt d)⁻¹, Real.pi / 180, fun d => d⟩ :
          FloatLib ℝ)
        ⟨2, 1, 1⟩ 0 90 0 ⟨1, 0, 0⟩).toMatrix
      = Spec.Translation ⟨1, 0, 0⟩ * Spec.RotationY 0 1 * Spec.Scale ⟨2, 1, 1⟩ := by
  have h := (C6_SetTransformations_model_matrix
    (⟨Real.cos, Real.sin, Real.tan, fun d => (Real.sqrt d)⁻¹, Real.pi / 180, fun d => d⟩ :
          FloatLib ℝ)
    ⟨2, 1, 1⟩ 0 90 0 ⟨1, 0, 0⟩
    (⟨some ⟨[]⟩, fun _ => ⟨0, ""⟩, 0, []⟩ : SceneManager ℝ) ⟨[]⟩ rfl (by simp)).2.2
    (by simp) (by simp)
  have hq : (90 : ℝ) * (Real.pi / 180) = Real.pi / 2 := by ring
  rw [h]
  simp only [hq, Real.cos_pi_div_two, Real.sin_pi_div_two]

end ModelMatrix

/-! ## The pointer callback -/

section Pointer

variable {F : Type} [LinearOrderedField F]

/-- The yaw that `Mouse_Position_Callback` stores. -/
theorem Mouse_Position_Callback_Yaw (L : FloatLib F) (x y : F) (v : ViewManager F) :
    (ViewManager.Mouse_Position_Callback L x y v).g_pCamera.Yaw
      = v.g_pCamera.Yaw
        + L.toFloat (x - (if v.firstMouse then L.toFloat x else v.lastX)) * (1 / 10) := rfl

/-- The pitch that `Mouse_Position_Callback` stores: the sum is cut at 89 and
then at -89. -/
theorem Mouse_Position_Callback_Pitch (L : FloatLib F) (x y : F) (v : ViewManager F) :
    (ViewManager.Mouse_Position_Callback L x y v).g_pCamera.Pitch
      = (if (if v.g_pCamera.Pitch
                + L.toFloat ((if v.firstMouse then L.toFloat y else v.lastY) - y) * (1 / 10)
                > 89
              then 89
              else v.g_pCamera.Pitch
                + L.toFloat ((if v.firstMouse then L.toFloat y else v.lastY) - y) * (1 / 10))
            < -89
          then -89
          else (if v.g_pCamera.Pitch
                + L.toFloat ((if v.firstMouse then L.toFloat y else v.lastY) - y) * (1 / 10)
                > 89
              then 89
              else v.g_pCamera.Pitch
                + L.toFloat ((if v.firstMouse then L.toFloat y else v.lastY) - y) * (1 / 10)))
      := rfl

/-- The pitch after a call of `Mouse_Position_Callback` is within [-89, 89]. -/
theorem Mouse_Position_Callback_Pitch_bounds (L : FloatLib F) (x y : F) (v : ViewManager F) :
    -89 ≤ (ViewManager.Mouse_Position_Callback L x y v).g_pCamera.Pitch
      ∧ (ViewManager.Mouse_Position_Callback L x y v).g_pCamera.Pitch ≤ 89 := by
  rw [Mouse_Position_Callback_Pitch]
  generalize v.g_pCamera.Pitch
    + L.toFloat ((if v.firstMouse then L.toFloat y else v.lastY) - y) * (1 / 10) = p
  by_cases h1 : p > 89
  · rw [if_pos h1, if_neg (by norm_num)]
    constructor <;> norm_num
  · rw [if_neg h1]
    by_cases h2 : p < -89
    · rw [if_pos h2]
      constructor <;> norm_num
    · rw [if_neg h2]
      exact ⟨not_lt.1 h2, not_lt.1 h1⟩

/-- A list of pointer positions followed by one more. -/
theorem pointerMoves_append (L : FloatLib F) (ps : List (F × F)) (p : F × F)
    (v : ViewManager F) :
    ViewManager.pointerMoves L (ps ++ [p]) v
      = ViewManager.Mouse_Position_Callback L p.1 p.2 (ViewManager.pointerMoves L ps v) := by
  induction ps generalizing v with
  | nil => rfl
  | cons q qs ih => exact ih _

/-- The exponent of a rational between two consecutive powers of two, from
the normal range on. -/
theorem float32_exponent_eq (q : ℚ) (e : ℤ) (hlo : (2 : ℚ) ^ e ≤ |q|)
    (hhi : |q| < 2 ^ (e + 1)) (he : -126 ≤ e) : float32.exponent q = e := by
  have hpos : (0 : ℚ) < |q| := lt_of_lt_of_le (by positivity) hlo
  have h1 : e ≤ Int.log 2 |q| :=
    (Int.zpow_le_iff_le_log (by norm_num) hpos).1 (by exact_mod_cast hlo)
  have h2 : Int.log 2 |q| < e + 1 :=
    (Int.lt_zpow_iff_log_lt (by norm_num) hpos).1 (by exact_mod_cast hhi)
  unfold float32.exponent
  rw [max_eq_left (by omega)]
  omega

/-- The value of `float32` at a rational of exponent `e` that lies within
half a unit of the multiple `m` of `2 ^ (e - 23)`. -/
theorem float32_eq (q : ℚ) (e m : ℤ) (hlo : (2 : ℚ) ^ e ≤ |q|) (hhi : |q| < 2 ^ (e + 1))
    (he : -126 ≤ e) (h1 : (m : ℚ) - 1 / 2 < q / 2 ^ (e - 23))
    (h2 : q / 2 ^ (e - 23) < m + 1 / 2) : float32 q = m * 2 ^ (e - 23) := by
  unfold float32
  rw [float32_exponent_eq q e hlo hhi he]
  simp only
  congr 2
  rcases le_or_lt (m : ℚ) (q / 2 ^ (e - 23)) with hm | hm
  · have hf : ⌊q / (2 : ℚ) ^ (e - 23)⌋ = m := Int.floor_eq_iff.2 ⟨hm, by linarith⟩
    rw [hf, if_pos (by linarith)]
  · have hf : ⌊q / (2 : ℚ) ^ (e - 23)⌋ = m - 1 :=
      Int.floor_eq_iff.2 ⟨by push_cast; linarith, by push_cast; linarith⟩
    rw [hf, if_neg (by push_cast; linarith), if_pos (by push_cast; linarith)]
    ring

/-- The numbers 0, 30, 50, 100 and 200 are single-precision values. -/
theorem float32_small_integers :
    float32 0 = 0 ∧ float32 30 = 30 ∧ float32 50 = 50 ∧ float32 100 = 100
      ∧ float32 200 = 200 := by
  refine ⟨by simp [float32], ?_, ?_, ?_, ?_⟩
  · rw [float32_eq 30 4 15728640 (by norm_num [abs_of_pos]) (by norm_num [abs_of_pos])
      (by norm_num) (by norm_num) (by norm_num)]
    norm_num
  · rw [float32_eq 50 5 13107200 (by norm_num [abs_of_pos]) (by norm_num [abs_of_pos])
      (by norm_num) (by norm_num) (by norm_num)]
    norm_num
  · rw [float32_eq 100 6 13107200 (by norm_num [abs_of_pos]) (by norm_num [abs_of_pos])
      (by norm_num) (by norm_num) (by norm_num)]
    norm_num
  · rw [float32_eq 200 7 13107200 (by norm_num [abs_of_pos]) (by norm_num [abs_of_pos])
      (by norm_num) (by norm_num) (by norm_num)]
    norm_num

/-- The number 0.1 is not a single-precision value: its conversion is
13421773 / 2 ^ 27, and the difference of the two converts to
13421773 / 2 ^ 53. -/
theorem float32_tenth :
    float32 (1 / 10) = 13421773 / 134217728
      ∧ float32 (13421773 / 134217728 - 1 / 10) = 13421773 / 9007199254740992 := by
  constructor
  · rw [float32_eq (1 / 10) (-4) 13421773 (by norm_num [abs_of_pos])
      (by norm_num [abs_of_pos]) (by norm_num) (by norm_num) (by norm_num)]
    norm_num
  · rw [float32_eq (13421773 / 134217728 - 1 / 10) (-30) 13421773
      (by norm_num [abs_of_pos]) (by norm_num [abs_of_pos]) (by norm_num) (by norm_num)
      (by norm_num)]
    norm_num

/-- C7, as amended. For a pointer position whose coordinates are `float`
values (the conversion to `float` leaves them, and 0, as they are), the first
call of `Mouse_Position_Callback` after the constructor leaves yaw and pitch
at the values they had, the pitch that `new Camera()` chose being within the
[-89, 89] of the camera's data model. -/
theorem C7_first_pointer_move_keeps_yaw_pitch (L : FloatLib F)
    (pShaderManager : Option (ShaderManager F)) (camera0 : Camera F) (x y : F)
    (hlo : -89 ≤ camera0.Pitch) (hhi : camera0.Pitch ≤ 89)
    (hx : L.toFloat x = x) (hy : L.toFloat y = y) (hzero : L.toFloat 0 = 0) :
    (ViewManager.Mouse_Position_Callback L x y
        (ViewManager.new pShaderManager camera0)).g_pCamera.Yaw
        = (ViewManager.new pShaderManager camera0).g_pCamera.Yaw
      ∧ (ViewManager.Mouse_Position_Callback L x y
        (ViewManager.new pShaderManager camera0)).g_pCamera.Pitch
        = (ViewManager.new pShaderManager camera0).g_pCamera.Pitch := by
  rw [Mouse_Position_Callback_Yaw, Mouse_Position_Callback_Pitch]
  simp only [ViewManager.new, if_true, hx, hy, sub_self, hzero, zero_mul, add_zero]
  rw [if_neg (not_lt.2 hhi), if_neg (not_lt.2 hlo)]
  exact ⟨trivial, rfl⟩

/-- C7, as amended, on a camera with yaw -90 and pitch 0, the pointer at
(100, 200) and the single-precision conversion: yaw and pitch are -90 and 0
after the first call. -/
theorem C7_witness_first_move :
    (ViewManager.Mouse_Position_Callback f32Lib 100 200
        (ViewManager.new none defaultCamera)).g_pCamera.Yaw = -90
      ∧ (ViewManager.Mouse_Position_Callback f32Lib 100 200
        (ViewManager.new none defaultCamera)).g_pCamera.Pitch = 0 :=
  C7_first_pointer_move_keeps_yaw_pitch f32Lib none defaultCamera 100 200 (by decide)
    (by decide) float32_small_integers.2.2.2.1 float32_small_integers.2.2.2.2
    float32_small_integers.1

/-- C7, as stated, fails: with the single-precision conversion and the
pointer at (0.1, 0.1), the first call after the constructor stores
`(float)0.1` in `lastY` and subtracts the `double` 0.1 from it, so the pitch
leaves 0. -/
theorem C7_counterexample_tenth :
    (ViewManager.Mouse_Position_Callback f32Lib (1 / 10) (1 / 10)
        (ViewManager.new none defaultCamera)).g_pCamera.Pitch
      ≠ (ViewManager.new none defaultCamera).g_pCamera.Pitch := by
  rw [Mouse_Position_Callback_Pitch]
  have h1 : f32Lib.toFloat (1 / 10) = 13421773 / 134217728 := float32_tenth.1
  have h2 : f32Lib.toFloat (13421773 / 134217728 - 1 / 10) = 13421773 / 9007199254740992 :=
    float32_tenth.2
  simp only [ViewManager.new, if_true, h1, h2, defaultCamera]
  norm_num

/-- The front vector that `Mouse_Position_Callback` stores. -/
theorem Mouse_Position_Callback_Front (L : FloatLib F) (x y : F) (v : ViewManager F) :
    (ViewManager.Mouse_Position_Callback L x y v).g_pCamera.Front
      = glm.normalize L
          ⟨L.cos (glm.radians L (ViewManager.Mouse_Position_Callback L x y v).g_pCamera.Yaw)
              * L.cos (glm.radians L
                  (ViewManager.Mouse_Position_Callback L x y v).g_pCamera.Pitch),
            L.sin (glm.radians L (ViewManager.Mouse_Position_Callback L x y v).g_pCamera.Pitch),
            L.sin (glm.radians L (ViewManager.Mouse_Position_Callback L x y v).g_pCamera.Yaw)
              * L.cos (glm.radians L
                  (ViewManager.Mouse_Position_Callback L x y v).g_pCamera.Pitch)⟩ := rfl

/-- A vector that `glm::normalize` returns is not (2.5, -1, -5), whose
squared length is 32.25, when `inversesqrt` inverts the square root on the
positive numbers. -/
theorem normalize_ne_constructor_front (L : FloatLib F)
    (hinv : ∀ d : F, 0 < d → d * L.inversesqrt d ^ 2 = 1) (w : glm.vec3 F) :
    glm.normalize L w ≠ ⟨5 / 2, -1, -5⟩ := by
  intro h
  simp only [glm.normalize, glm.vec3.scale, glm.vec3.mk.injEq] at h
  obtain ⟨hx, hy, hz⟩ := h
  have hd : 0 ≤ glm.dot w w := by
    unfold glm.dot
    nlinarith [mul_self_nonneg w.x, mul_self_nonneg w.y, mul_self_nonneg w.z]
  have hsq : glm.dot w w * L.inversesqrt (glm.dot w w) ^ 2 = 129 / 4 := by
    have : glm.dot w w * L.inversesqrt (glm.dot w w) ^ 2
        = (w.x * L.inversesqrt (glm.dot w w)) ^ 2 + (w.y * L.inversesqrt (glm.dot w w)) ^ 2
          + (w.z * L.inversesqrt (glm.dot w w)) ^ 2 := by
      simp only [glm.dot]
      ring
    rw [this, hx, hy, hz]
    norm_num
  rcases hd.lt_or_eq with hpos | hzero
  · rw [hinv _ hpos] at hsq
    norm_num at hsq
  · rw [← hzero] at hsq
    norm_num at hsq

/-- C8, what the code does: the first call of `Mouse_Position_Callback` after
the constructor stores a normalised vector in `Front`, which is not the
(2.5, -1, -5) that the constructor stored, whatever the pointer position and
whatever `new Camera()` chose for yaw and pitch. -/
theorem C8_first_pointer_move_replaces_front (L : FloatLib F)
    (hinv : ∀ d : F, 0 < d → d * L.inversesqrt d ^ 2 = 1)
    (pShaderManager : Option (ShaderManager F)) (camera0 : Camera F) (x y : F) :
    (ViewManager.new pShaderManager camera0).g_pCamera.Front = ⟨5 / 2, -1, -5⟩
      ∧ (ViewManager.Mouse_Position_Callback L x y
          (ViewManager.new pShaderManager camera0)).g_pCamera.Front
        ≠ (ViewManager.new pShaderManager camera0).g_pCamera.Front := by
  refine ⟨rfl, ?_⟩
  rw [Mouse_Position_Callback_Front]
  exact normalize_ne_constructor_front L hinv _

/-- C8, at the failing input over the real numbers with the real cosine,
sine and inverse square root and a conversion to `float` that keeps the
`float` values 500 and 400: camera yaw -90 and pitch 0, pointer at
(500, 400); the first call turns `Front` from (2.5, -1, -5) to (0, 0, -1). -/
theorem C8_failing_input_first_move :
    (ViewManager.Mouse_Position_Callback
        (⟨Real.cos, Real.sin, Real.tan, fun d => (Real.sqrt d)⁻¹, Real.pi / 180, fun d => d⟩ :
          FloatLib ℝ)
        500 400
        (ViewManager.new none ⟨⟨0, 0, 0⟩, ⟨0, 0, -1⟩, ⟨0, 1, 0⟩, -90, 0, 45⟩)).g_pCamera.Front
        = ⟨0, 0, -1⟩
      ∧ (ViewManager.Mouse_Position_Callback
        (⟨Real.cos, Real.sin, Real.tan, fun d => (Real.sqrt d)⁻¹, Real.pi / 180, fun d => d⟩ :
          FloatLib ℝ)
        500 400
        (ViewManager.new none ⟨⟨0, 0, 0⟩, ⟨0, 0, -1⟩, ⟨0, 1, 0⟩, -90, 0, 45⟩)).g_pCamera.Front
        ≠ (ViewManager.new (none : Option (ShaderManager ℝ))
            ⟨⟨0, 0, 0⟩, ⟨0, 0, -1⟩, ⟨0, 1, 0⟩, -90, 0, 45⟩).g_pCamera.Front := by
  refine ⟨?_, (C8_first_pointer_move_replaces_front
    (⟨Real.cos, Real.sin, Real.tan, fun d => (Real.sqrt d)⁻¹, Real.pi / 180, fun d => d⟩ :
          FloatLib ℝ)
    ?_ none ⟨⟨0, 0, 0⟩, ⟨0, 0, -1⟩, ⟨0, 1, 0⟩, -90, 0, 45⟩ 500 400).2⟩
  · have hq : (-90 : ℝ) * (Real.pi / 180) = -(Real.pi / 2) := by ring
    rw [Mouse_Position_Callback_Front, Mouse_Position_Callback_Yaw,
      Mouse_Position_Callback_Pitch]
    norm_num [ViewManager.new, glm.normalize, glm.dot, glm.radians, glm.vec3.scale, hq]
  · intro d hd
    show d * ((Real.sqrt d)⁻¹) ^ 2 = 1
    rw [inv_pow, Real.sq_sqrt hd.le]
    exact mul_inv_cancel₀ hd.ne'

/-- C10. From every state and for every finite sequence of pointer
positions, the pitch after each call of `Mouse_Position_Callback` is within
[-89, 89]: so it is after the last position of every non-empty sequence. -/
theorem C10_pitch_stays_clamped (L : FloatLib F) (v : ViewManager F) (ps : List (F × F))
    (p : F × F) :
    -89 ≤ (ViewManager.pointerMoves L (ps ++ [p]) v).g_pCamera.Pitch
      ∧ (ViewManager.pointerMoves L (ps ++ [p]) v).g_pCamera.Pitch ≤ 89 := by
  rw [pointerMoves_append]
  exact Mouse_Position_Callback_Pitch_bounds L p.1 p.2 _

/-- C10, on a concrete run: from pitch 0 the pointer moves up by 2000 and
then down by 5000; the pitch is 89 after the second position and -89 after
the third. -/
theorem C10_witness_large_moves :
    (ViewManager.pointerMoves ratLib [(0, 3000), (0, 1000)]
        (ViewManager.new none defaultCamera)).g_pCamera.Pitch = 89
      ∧ (ViewManager.pointerMoves ratLib [(0, 3000), (0, 1000), (0, 6000)]
        (ViewManager.new none defaultCamera)).g_pCamera.Pitch = -89 := by
  have h1 := C10_pitch_stays_clamped ratLib (ViewManager.new none defaultCamera)
    [(0, 3000)] (0, 1000)
  have h2 := C10_pitch_stays_clamped ratLib (ViewManager.new none defaultCamera)
    [(0, 3000), (0, 1000)] (0, 6000)
  constructor
  · apply le_antisymm h1.2
    simp only [ViewManager.pointerMoves, Mouse_Position_Callback_Pitch]
    norm_num [ViewManager.new, defaultCamera, ViewManager.Mouse_Position_Callback, ratLib]
  · apply le_antisymm _ h2.1
    simp only [ViewManager.pointerMoves, Mouse_Position_Callback_Pitch]
    norm_num [ViewManager.new, defaultCamera, ViewManager.Mouse_Position_Callback, ratLib]

end Pointer

/-! ## The front vector -/

section Front

variable {F : Type} [LinearOrderedField F]

/-- The vector that `Mouse_Position_Callback` normalises has squared length
1, by the Pythagorean identity for yaw and for pitch. -/
theorem direction_dot_self (L : FloatLib F)
    (htrig : ∀ a : F, L.cos a ^ 2 + L.sin a ^ 2 = 1) (yaw pitch : F) :
    glm.dot (Spec.Direction L yaw pitch) (Spec.Direction L yaw pitch) = 1 := by
  have hy := htrig (yaw * L.degToRad)
  have hp := htrig (pitch * L.degToRad)
  simp only [glm.dot, Spec.Direction]
  have : L.cos (yaw * L.degToRad) * L.cos (pitch * L.degToRad)
        * (L.cos (yaw * L.degToRad) * L.cos (pitch * L.degToRad))
      + L.sin (pitch * L.degToRad) * L.sin (pitch * L.degToRad)
      + L.sin (yaw * L.degToRad) * L.cos (pitch * L.degToRad)
        * (L.sin (yaw * L.degToRad) * L.cos (pitch * L.degToRad))
      = (L.cos (yaw * L.degToRad) ^ 2 + L.sin (yaw * L.degToRad) ^ 2)
          * L.cos (pitch * L.degToRad) ^ 2 + L.sin (pitch * L.degToRad) ^ 2 := by ring
  rw [this, hy, one_mul, hp]

/-- C11. After every call of `Mouse_Position_Callback` the vector handed to
`normalize` is the spec's direction for the updated yaw and pitch in degrees
and is not zero (its squared length is 1), and `Front` is that direction and
has unit length; the cosine and sine of the library satisfy the Pythagorean
identity and its inverse square root of 1 is 1. -/
theorem C11_front_is_unit_direction (L : FloatLib F)
    (htrig : ∀ a : F, L.cos a ^ 2 + L.sin a ^ 2 = 1) (hone : L.inversesqrt 1 = 1)
    (x y : F) (v : ViewManager F) :
    (ViewManager.Mouse_Position_Callback L x y v).g_pCamera.Front
        = glm.normalize L (Spec.Direction L
            (ViewManager.Mouse_Position_Callback L x y v).g_pCamera.Yaw
            (ViewManager.Mouse_Position_Callback L x y v).g_pCamera.Pitch)
      ∧ Spec.Direction L (ViewManager.Mouse_Position_Callback L x y v).g_pCamera.Yaw
          (ViewManager.Mouse_Position_Callback L x y v).g_pCamera.Pitch ≠ ⟨0, 0, 0⟩
      ∧ (ViewManager.Mouse_Position_Callback L x y v).g_pCamera.Front
        = Spec.Direction L (ViewManager.Mouse_Position_Callback L x y v).g_pCamera.Yaw
            (ViewManager.Mouse_Position_Callback L x y v).g_pCamera.Pitch
      ∧ glm.dot (ViewManager.Mouse_Position_Callback L x y v).g_pCamera.Front
          (ViewManager.Mouse_Position_Callback L x y v).g_pCamera.Front = 1 := by
  have hfront : (ViewManager.Mouse_Position_Callback L x y v).g_pCamera.Front
      = glm.normalize L (Spec.Direction L
          (ViewManager.Mouse_Position_Callback L x y v).g_pCamera.Yaw
          (ViewManager.Mouse_Position_Callback L x y v).g_pCamera.Pitch) := rfl
  have hdot := direction_dot_self L htrig
    (ViewManager.Mouse_Position_Callback L x y v).g_pCamera.Yaw
    (ViewManager.Mouse_Position_Callback L x y v).g_pCamera.Pitch
  have hnorm : glm.normalize L (Spec.Direction L
        (ViewManager.Mouse_Position_Callback L x y v).g_pCamera.Yaw
        (ViewManager.Mouse_Position_Callback L x y v).g_pCamera.Pitch)
      = Spec.Direction L (ViewManager.Mouse_Position_Callback L x y v).g_pCamera.Yaw
        (ViewManager.Mouse_Position_Callback L x y v).g_pCamera.Pitch := by
    unfold glm.normalize
    rw [hdot, hone]
    simp [glm.vec3.scale]
  refine ⟨hfront, ?_, hfront.trans hnorm, ?_⟩
  · intro hzero
    rw [hzero] at hdot
    simp [glm.dot] at hdot
  · rw [hfront, hnorm]
    exact hdot

/-- C11, over the real numbers with the real cosine, sine and inverse square
root and a conversion to `float` that keeps the `float` values 500 and 400:
from yaw -90 and pitch 0, the call at (500, 400) leaves a front vector
of squared length 1, namely (0, 0, -1). -/
theorem C11_witness_real_front :
    glm.dot
        (ViewManager.Mouse_Position_Callback
          (⟨Real.cos, Real.sin, Real.tan, fun d => (Real.sqrt d)⁻¹, Real.pi / 180, fun d => d⟩ :
          FloatLib ℝ)
          500 400
          (ViewManager.new none ⟨⟨0, 0, 0⟩, ⟨0, 0, -1⟩, ⟨0, 1, 0⟩, -90, 0, 45⟩)).g_pCamera.Front
        (ViewManager.Mouse_Position_Callback
          (⟨Real.cos, Real.sin, Real.tan, fun d => (Real.sqrt d)⁻¹, Real.pi / 180, fun d => d⟩ :
          FloatLib ℝ)
          500 400
          (ViewManager.new none ⟨⟨0, 0, 0⟩, ⟨0, 0, -1⟩, ⟨0, 1, 0⟩, -90, 0, 45⟩)).g_pCamera.Front
      = 1 :=
  (C11_front_is_unit_direction
    (⟨Real.cos, Real.sin, Real.tan, fun d => (Real.sqrt d)⁻¹, Real.pi / 180, fun d => d⟩ :
          FloatLib ℝ)
    (fun a => Real.cos_sq_add_sin_sq a) (by simp) 500 400
    (ViewManager.new none ⟨⟨0, 0, 0⟩, ⟨0, 0, -1⟩, ⟨0, 1, 0⟩, -90, 0, 45⟩)).2.2.2

end Front

/-! ## Keyboard translation and the scroll speed -/

section Keyboard

variable {F : Type} [LinearOrderedField F]

/-- A call of `Mouse_Scroll_Callback` changes `movementSpeed` and nothing
else. -/
theorem Mouse_Scroll_Callback_only_speed (L : FloatLib F) (a b : F) (v : ViewManager F) :
    ViewManager.Mouse_Scroll_Callback L a b v
      = { v with movementSpeed := (ViewManager.Mouse_Scroll_Callback L a b v).movementSpeed } :=
  rfl

/-- Scroll events leave the camera as it was. -/
theorem scrolls_camera (L : FloatLib F) (es : List (F × F)) (v : ViewManager F) :
    (ViewManager.scrolls L es v).g_pCamera = v.g_pCamera := by
  induction es generalizing v with
  | nil => rfl
  | cons e es ih =>
    simp only [ViewManager.scrolls]
    rw [ih]
    rfl

/-- The position after `ProcessKeyboardEvents` is a function of the keys and
of the camera before; no other part of the state enters it. -/
theorem ProcessKeyboardEvents_Position_of_camera (L : FloatLib F) (k : Keys)
    (v w : ViewManager F) (hcam : v.g_pCamera = w.g_pCamera) :
    (ViewManager.ProcessKeyboardEvents L k v).g_pCamera.Position
      = (ViewManager.ProcessKeyboardEvents L k w).g_pCamera.Position := by
  simp only [ViewManager.ProcessKeyboardEvents, hcam]

/-- C14. The position that `ProcessKeyboardEvents` computes is the same after
any two scroll histories, for the same keys and the same state before the
scrolling; with the forward key alone among the movement keys it is the
position plus 0.05 times the front vector. -/
theorem C14_translation_ignores_scroll (L : FloatLib F) (v : ViewManager F) (k : Keys)
    (ss1 ss2 : List (F × F)) (esc p o : Bool) :
    (ViewManager.ProcessKeyboardEvents L k (ViewManager.scrolls L ss1 v)).g_pCamera.Position
        = (ViewManager.ProcessKeyboardEvents L k
            (ViewManager.scrolls L ss2 v)).g_pCamera.Position
      ∧ (ViewManager.ProcessKeyboardEvents L ⟨esc, true, false, false, false, false, false, p, o⟩
          (ViewManager.scrolls L ss1 v)).g_pCamera.Position
        = v.g_pCamera.Position.add (v.g_pCamera.Front.scale (1 / 20)) := by
  constructor
  · exact ProcessKeyboardEvents_Position_of_camera L k _ _
      ((scrolls_camera L ss1 v).trans (scrolls_camera L ss2 v).symm)
  · rw [ProcessKeyboardEvents_Position_of_camera L _ _ v (scrolls_camera L ss1 v)]
    simp [ViewManager.ProcessKeyboardEvents]

/-- C14, on a concrete run: scrolling by 10 takes `movementSpeed` from 0.05
to 0.15, and the forward key still moves the camera from (-4, 3, 6) by 0.05
times the front vector (2.5, -1, -5). -/
theorem C14_witness_scroll_then_forward :
    (ViewManager.scrolls ratLib [(0, 10)] (ViewManager.new none defaultCamera)).movementSpeed = 3 / 20
      ∧ (ViewManager.ProcessKeyboardEvents ratLib
          ⟨false, true, false, false, false, false, false, false, false⟩
          (ViewManager.scrolls ratLib [(0, 10)] (ViewManager.new none defaultCamera))).g_pCamera.Position
        = ⟨-31 / 8, 59 / 20, 23 / 4⟩ := by
  constructor
  · norm_num [ViewManager.scrolls, ViewManager.Mouse_Scroll_Callback, ViewManager.new, ratLib]
  · rw [(C14_translation_ignores_scroll ratLib (ViewManager.new none defaultCamera)
      ⟨false, true, false, false, false, false, false, false, false⟩ [(0, 10)] []
      false false false).2]
    norm_num [ViewManager.new, glm.vec3.add, glm.vec3.scale]

end Keyboard

/-! ## The capacity of the texture table -/

section Capacity

variable {F : Type}

/-- C15, what the code does: a call of `CreateGLTexture` that returns `true`
on a table that already counts `MAX_TEXTURES` entries or more writes the
cell at the count, which is past the end of the array, and the count goes
above the capacity. -/
theorem C15_registration_past_capacity (image : Option STBImage) (textureID : Nat)
    (tag : String) (s : SceneManager F)
    (hok : (SceneManager.CreateGLTexture image textureID tag s).1 = true)
    (hfull : MAX_TEXTURES ≤ s.m_loadedTextures) :
    MAX_TEXTURES < (SceneManager.CreateGLTexture image textureID tag s).2.m_loadedTextures
      ∧ ∃ i, MAX_TEXTURES ≤ i
        ∧ (SceneManager.CreateGLTexture image textureID tag s).2.m_textureIDs i
          = ⟨textureID, tag⟩ := by
  obtain ⟨h1, h2, _⟩ := CreateGLTexture_true image textureID tag s hok
  exact ⟨by omega, s.m_loadedTextures, hfull, h2⟩

/-- C15, at the failing input: seventeen successful calls from the empty
table leave a count of 17, and the seventeenth wrote its entry to cell 16. -/
theorem C15_failing_input_seventeen :
    (CreateGLTextureSeq seventeenLoads emptyScene).1.count true = 17
      ∧ (CreateGLTextureSeq seventeenLoads emptyScene).2.m_loadedTextures = 17
      ∧ (CreateGLTextureSeq seventeenLoads emptyScene).2.m_textureIDs 16 = ⟨2, "b"⟩
      ∧ MAX_TEXTURES < (SceneManager.CreateGLTexture loadB.image loadB.textureID loadB.tag
          (CreateGLTextureSeq (List.replicate 16 loadA) emptyScene).2).2.m_loadedTextures :=
  ⟨by decide, by decide, by decide,
    (C15_registration_past_capacity loadB.image loadB.textureID loadB.tag
      (CreateGLTextureSeq (List.replicate 16 loadA) emptyScene).2 rfl (by decide)).1⟩

end Capacity

/-! ## The projection matrix of a frame -/

section Projection

variable {F : Type} [LinearOrderedField F]

/-- The uploads of `SetupSceneLights` do not touch the three uniforms that
`PrepareSceneView` uploads before them. -/
theorem uploads_current (L : FloatLib F) (c : Camera F) (sh : ShaderManager F)
    (view projection : glm.mat4 F) (pos : glm.vec3 F) :
    (ViewManager.SetupSceneLights.uploads L c
        (((sh.setMat4Value "view" view).setMat4Value "projection" projection).setVec3Value
          "viewPosition" pos)).current "projection" = some (UniformValue.mat4 projection)
      ∧ (ViewManager.SetupSceneLights.uploads L c
        (((sh.setMat4Value "view" view).setMat4Value "projection" projection).setVec3Value
          "viewPosition" pos)).current "view" = some (UniformValue.mat4 view) := by
  constructor <;>
    simp [ViewManager.SetupSceneLights.uploads, ShaderManager.current,
      ShaderManager.setMat4Value, ShaderManager.setVec3Value, ShaderManager.setFloatValue]

/-- With a shader object in place, the projection that a frame uploads is the
one computed from the state in which `PrepareSceneView` was entered, and the
view it uploads is that of the camera after the keys were processed. -/
theorem PrepareSceneView_uploaded (L : FloatLib F) (k : Keys) (t : F) (v : ViewManager F)
    (sh : ShaderManager F) (hsh : v.m_pShaderManager = some sh) :
    (ViewManager.PrepareSceneView L k t v).uploaded "projection"
        = some (UniformValue.mat4 (ViewManager.PrepareSceneView.projection L v))
      ∧ (ViewManager.PrepareSceneView L k t v).uploaded "view"
        = some (UniformValue.mat4
            ((ViewManager.ProcessKeyboardEvents L k v).g_pCamera.GetViewMatrix L)) := by
  have h := uploads_current L (ViewManager.ProcessKeyboardEvents L k v).g_pCamera sh
    ((ViewManager.ProcessKeyboardEvents L k v).g_pCamera.GetViewMatrix L)
    (ViewManager.PrepareSceneView.projection L v)
    (ViewManager.ProcessKeyboardEvents L k v).g_pCamera.Position
  simp only [ViewManager.PrepareSceneView, ViewManager.ProcessKeyboardEvents, hsh,
    ViewManager.SetupSceneLights, ViewManager.uploaded] at h ⊢
  exact h

/-- The flag that `ProcessKeyboardEvents` leaves: P clears it, O sets it, and
O is tested last. -/
theorem ProcessKeyboardEvents_flag (L : FloatLib F) (k : Keys) (v : ViewManager F) :
    (ViewManager.ProcessKeyboardEvents L k v).bOrthographicProjection
      = (if k.O then true else if k.P then false else v.bOrthographicProjection) := rfl

/-- The keys do not change the zoom or the shader pointer. -/
theorem ProcessKeyboardEvents_keeps (L : FloatLib F) (k : Keys) (v : ViewManager F) :
    (ViewManager.ProcessKeyboardEvents L k v).g_pCamera.Zoom = v.g_pCamera.Zoom
      ∧ (ViewManager.ProcessKeyboardEvents L k v).m_pShaderManager = v.m_pShaderManager :=
  ⟨rfl, rfl⟩

/-- The orthographic matrix for left, right, bottom, top = -2, 2, -2, 2, near
0.1 and far 100, entry by entry. -/
theorem ortho_entries :
    glm.ortho (-2 : F) 2 (-2) 2 (1 / 10) 100
      = ⟨⟨1 / 2, 0, 0, 0⟩, ⟨0, 1 / 2, 0, 0⟩, ⟨0, 0, -(20 / 999), 0⟩,
          ⟨0, 0, -(1001 / 999), 1⟩⟩ := by
  simp only [glm.ortho, glm.mat4.mk.injEq, glm.vec4.mk.injEq]
  norm_num

/-- The perspective matrix for aspect 800 / 600, near 0.1 and far 100, entry
by entry in terms of the tangent of half the field of view. -/
theorem perspective_entries (L : FloatLib F) (fovy : F) :
    glm.perspective L fovy (800 / 600) (1 / 10) 100
      = ⟨⟨1 / (800 / 600 * L.tan (fovy / 2)), 0, 0, 0⟩, ⟨0, 1 / L.tan (fovy / 2), 0, 0⟩,
          ⟨0, 0, -(1001 / 999), -1⟩, ⟨0, 0, -(200 / 999), 0⟩⟩ := by
  simp only [glm.perspective, glm.mat4.mk.injEq, glm.vec4.mk.injEq]
  norm_num

/-- A perspective matrix is never the orthographic one: their last rows
differ. -/
theorem perspective_ne_ortho (L : FloatLib F) (fovy aspect zNear zFar l r b t n f : F) :
    glm.perspective L fovy aspect zNear zFar ≠ glm.ortho l r b t n f := by
  intro h
  simp only [glm.perspective, glm.ortho, glm.mat4.mk.injEq, glm.vec4.mk.injEq] at h
  exact zero_ne_one h.2.2.2.2.2.2

/-- C12. With a shader object in place: once the key O has been processed,
the projection that the next `PrepareSceneView` uploads is the orthographic
matrix for left, right, bottom, top = -2, 2, -2, 2, near 0.1 and far 100,
whatever the keys of that next frame; once the key P has been processed
without O, it is the perspective matrix whose field of view is the camera's
zoom in degrees, with near 0.1 and far 100 (and aspect 800 / 600); both
matrices are given entry by entry. -/
theorem C12_projection_after_toggle (L : FloatLib F) (v : ViewManager F)
    (sh : ShaderManager F) (k1 k2 : Keys) (t : F) (hsh : v.m_pShaderManager = some sh) :
    (k1.O = true →
        (ViewManager.PrepareSceneView L k2 t
            (ViewManager.ProcessKeyboardEvents L k1 v)).uploaded "projection"
          = some (UniformValue.mat4 (glm.ortho (-2) 2 (-2) 2 (1 / 10) 100)))
      ∧ (k1.P = true → k1.O = false →
        (ViewManager.PrepareSceneView L k2 t
            (ViewManager.ProcessKeyboardEvents L k1 v)).uploaded "projection"
          = some (UniformValue.mat4
              (glm.perspective L (v.g_pCamera.Zoom * L.degToRad) (800 / 600) (1 / 10) 100)))
      ∧ glm.ortho (-2 : F) 2 (-2) 2 (1 / 10) 100
          = ⟨⟨1 / 2, 0, 0, 0⟩, ⟨0, 1 / 2, 0, 0⟩, ⟨0, 0, -(20 / 999), 0⟩,
              ⟨0, 0, -(1001 / 999), 1⟩⟩
      ∧ glm.perspective L (v.g_pCamera.Zoom * L.degToRad) (800 / 600) (1 / 10) 100
          = ⟨⟨1 / (800 / 600 * L.tan (v.g_pCamera.Zoom * L.degToRad / 2)), 0, 0, 0⟩,
              ⟨0, 1 / L.tan (v.g_pCamera.Zoom * L.degToRad / 2), 0, 0⟩,
              ⟨0, 0, -(1001 / 999), -1⟩, ⟨0, 0, -(200 / 999), 0⟩⟩ := by
  have hup := (PrepareSceneView_uploaded L k2 t (ViewManager.ProcessKeyboardEvents L k1 v) sh
    (by rw [(ProcessKeyboardEvents_keeps L k1 v).2, hsh])).1
  refine ⟨?_, ?_, ortho_entries, perspective_entries L _⟩
  · intro hO
    rw [hup]
    simp only [ViewManager.PrepareSceneView.projection, ProcessKeyboardEvents_flag, hO,
      if_true]
  · intro hP hO
    rw [hup]
    simp only [ViewManager.PrepareSceneView.projection, ProcessKeyboardEvents_flag, hO, hP,
      if_true, Bool.false_eq_true, if_false, (ProcessKeyboardEvents_keeps L k1 v).1,
      glm.radians]

/-- C12, on a concrete run: from the constructed state the key O is
processed; the next frame, with no key pressed, uploads the orthographic
matrix, given entry by entry. When P is processed after that, the frame that
follows uploads the perspective matrix for the zoom of 60 degrees that the
constructor set. -/
theorem C12_witness_O_then_frame :
    (ViewManager.PrepareSceneView ratLib noKeys 1
        (ViewManager.ProcessKeyboardEvents ratLib keyO startView)).uploaded "projection"
        = some (UniformValue.mat4
            ⟨⟨1 / 2, 0, 0, 0⟩, ⟨0, 1 / 2, 0, 0⟩, ⟨0, 0, -(20 / 999), 0⟩,
              ⟨0, 0, -(1001 / 999), 1⟩⟩)
      ∧ (ViewManager.PrepareSceneView ratLib noKeys 2
        (ViewManager.ProcessKeyboardEvents ratLib keyP
          (ViewManager.ProcessKeyboardEvents ratLib keyO startView))).uploaded "projection"
        = some (UniformValue.mat4
            (glm.perspective ratLib (60 * ratLib.degToRad) (800 / 600) (1 / 10) 100)) := by
  have h := C12_projection_after_toggle ratLib startView ⟨[]⟩ keyO noKeys 1 rfl
  have h2 := C12_projection_after_toggle ratLib
    (ViewManager.ProcessKeyboardEvents ratLib keyO startView) ⟨[]⟩ keyP noKeys 2 rfl
  exact ⟨by rw [h.1 rfl, h.2.2.1], h2.2.1 rfl rfl⟩

/-- C13, what the code does: with a shader object in place, the projection
that a frame uploads is computed on entry to `PrepareSceneView`, before the
keys of the frame are processed, while the view it uploads is computed after.
In the frame in which O is pressed from the perspective mode the uploaded
projection is still the perspective matrix, though the flag is set when the
frame ends; in the frame in which P is pressed alone from the orthographic
mode it is still the orthographic matrix. -/
theorem C13_projection_lags_one_frame (L : FloatLib F) (v : ViewManager F)
    (sh : ShaderManager F) (k : Keys) (t : F) (hsh : v.m_pShaderManager = some sh) :
    (ViewManager.PrepareSceneView L k t v).uploaded "view"
        = some (UniformValue.mat4
            ((ViewManager.ProcessKeyboardEvents L k v).g_pCamera.GetViewMatrix L))
      ∧ (v.bOrthographicProjection = false → k.O = true →
        (ViewManager.PrepareSceneView L k t v).uploaded "projection"
            = some (UniformValue.mat4
                (glm.perspective L (v.g_pCamera.Zoom * L.degToRad) (800 / 600) (1 / 10) 100))
          ∧ (ViewManager.PrepareSceneView L k t v).uploaded "projection"
            ≠ some (UniformValue.mat4 (glm.ortho (-2) 2 (-2) 2 (1 / 10) 100))
          ∧ (ViewManager.PrepareSceneView L k t v).bOrthographicProjection = true)
      ∧ (v.bOrthographicProjection = true → k.P = true → k.O = false →
        (ViewManager.PrepareSceneView L k t v).uploaded "projection"
            = some (UniformValue.mat4 (glm.ortho (-2) 2 (-2) 2 (1 / 10) 100))
          ∧ (ViewManager.PrepareSceneView L k t v).bOrthographicProjection = false) := by
  obtain ⟨hproj, hview⟩ := PrepareSceneView_uploaded L k t v sh hsh
  have hflag : (ViewManager.PrepareSceneView L k t v).bOrthographicProjection
      = (if k.O then true else if k.P then false else v.bOrthographicProjection) := by
    simp only [ViewManager.PrepareSceneView, ViewManager.ProcessKeyboardEvents, hsh,
      ViewManager.SetupSceneLights]
  refine ⟨hview, ?_, ?_⟩
  · intro hb hO
    have hpersp : ViewManager.PrepareSceneView.projection L v
        = glm.perspective L (v.g_pCamera.Zoom * L.degToRad) (800 / 600) (1 / 10) 100 := by
      simp only [ViewManager.PrepareSceneView.projection, hb, Bool.false_eq_true, if_false,
        glm.radians]
    refine ⟨by rw [hproj, hpersp], ?_, by rw [hflag, hO]; rfl⟩
    rw [hproj, hpersp]
    intro h
    exact perspective_ne_ortho L _ _ _ _ _ _ _ _ _ _ (UniformValue.mat4.inj (Option.some.inj h))
  · intro hb hP hO
    refine ⟨?_, by rw [hflag, hO, hP]; rfl⟩
    rw [hproj]
    simp only [ViewManager.PrepareSceneView.projection, hb, if_true]

/-- C13, at the failing input: the constructed state is in perspective mode;
in the frame in which O is pressed the uploaded projection is not the
orthographic matrix, and the flag is set only for the frames after it. -/
theorem C13_failing_input_O_frame :
    (ViewManager.PrepareSceneView ratLib keyO 1 startView).uploaded "projection"
        ≠ some (UniformValue.mat4 (glm.ortho (-2) 2 (-2) 2 (1 / 10) 100))
      ∧ (ViewManager.PrepareSceneView ratLib keyO 1 startView).bOrthographicProjection
        = true :=
  have h := (C13_projection_lags_one_frame ratLib startView ⟨[]⟩ keyO 1 rfl).2.1 rfl rfl
  ⟨h.2.1, h.2.2⟩

end Projection

/-! ## The draw sequence -/

section Draws

variable {F : Type} [LinearOrderedField F]

/-- The last column of the matrix of `SetTransformations` is the position,
whatever the scale, the angles and the math library. -/
theorem modelView_c3 (L : FloatLib F) (scaleXYZ : glm.vec3 F) (rx ry rz : F)
    (positionXYZ : glm.vec3 F) :
    (SceneManager.modelView L scaleXYZ rx ry rz positionXYZ).c3
      = ⟨positionXYZ.x, positionXYZ.y, positionXYZ.z, 1⟩ := by
  show (glm.mat4.mul (glm.mat4.mul (glm.mat4.mul (glm.mat4.mul _ _) _) _) _).c3 = _
  simp [glm.mat4.mul, glm.translate, glm.translateM, glm.rotate, glm.rotateM, glm.scale,
    glm.scaleM, glm.mat4.identity, glm.vec4.add, glm.vec4.scale]

/-- With a shader object in place, the second and third draws of
`RenderScene` are boxes drawn with the textures "darkwood" and "backplate",
and the uniform "model" they are drawn with is the matrix of the last
`SetTransformations` before each. -/
theorem RenderScene_box_draws (L : FloatLib F) (s : SceneManager F) (sh : ShaderManager F)
    (hsh : s.m_pShaderManager = some sh) :
    ((SceneManager.RenderScene L s ⟨[]⟩).2.meshAtDraw 1 = some Mesh.Box
        ∧ (SceneManager.RenderScene L s ⟨[]⟩).2.uniformAtDraw 1 "objectTexture"
          = some (UniformValue.sampler2D (SceneManager.FindTextureSlot s "darkwood"))
        ∧ (SceneManager.RenderScene L s ⟨[]⟩).2.uniformAtDraw 1 "model"
          = some (UniformValue.mat4 (SceneManager.modelView L ⟨1, 1, 1⟩ 0 0 0 ⟨0, 0, 0⟩)))
      ∧ ((SceneManager.RenderScene L s ⟨[]⟩).2.meshAtDraw 2 = some Mesh.Box
        ∧ (SceneManager.RenderScene L s ⟨[]⟩).2.uniformAtDraw 2 "objectTexture"
          = some (UniformValue.sampler2D (SceneManager.FindTextureSlot s "backplate"))
        ∧ (SceneManager.RenderScene L s ⟨[]⟩).2.uniformAtDraw 2 "model"
          = some (UniformValue.mat4 (SceneManager.modelView L ⟨1, 1, 1⟩ 0 0 0 ⟨0, 0, 2⟩))) := by
  obtain ⟨psh, ids, n, mats⟩ := s
  simp only at hsh
  subst hsh
  simp [SceneManager.RenderScene, SceneManager.SetTransformations,
    SceneManager.SetShaderColor, SceneManager.SetShaderTexture,
    SceneManager.SetTextureUVScale, SceneManager.FindTextureSlot, ShapeMeshes.DrawBoxMesh,
    ShapeMeshes.DrawPlaneMesh, ShapeMeshes.DrawSphereMesh, ShapeMeshes.DrawCylinderMesh,
    ShapeMeshes.draw, ShapeMeshes.meshAtDraw, ShapeMeshes.uniformAtDraw,
    ShaderManager.current, ShaderManager.setMat4Value, ShaderManager.setIntValue,
    ShaderManager.setVec4Value, ShaderManager.setVec2Value, ShaderManager.setSampler2DValue,
    g_ModelName]

/-- The spec's matrices for no rotation about Y, unit scale and no
translation are the identity. -/
theorem Spec_identity_cases :
    Spec.RotationY (1 : F) 0 = 1 ∧ Spec.Scale (⟨1, 1, 1⟩ : glm.vec3 F) = 1
      ∧ Spec.Translation (⟨0, 0, 0⟩ : glm.vec3 F) = 1 := by
  refine ⟨?_, ?_, ?_⟩ <;>
  · ext i j
    simp only [Spec.RotationY, Spec.Scale, Spec.Translation, neg_zero]
    fin_cases i <;> fin_cases j <;> rfl

/-- With unit scale and zero angles the matrix of `SetTransformations` is the
translation alone, the library's cosine and sine of 0 being 1 and 0 and its
inverse square root of 1 being 1. -/
theorem modelView_unit_scale (L : FloatLib F) (hone : L.inversesqrt 1 = 1)
    (hc : L.cos 0 = 1) (hs : L.sin 0 = 0) (positionXYZ : glm.vec3 F) :
    (SceneManager.modelView L ⟨1, 1, 1⟩ 0 0 0 positionXYZ).toMatrix
      = Spec.Translation positionXYZ := by
  rw [modelView_toMatrix L hone]
  simp only [Spec.Model, zero_mul, hc, hs, Spec_rotation_zero.1, Spec_rotation_zero.2,
    Spec_identity_cases.1, Spec_identity_cases.2.1, mul_one]

/-- C16, what the code does: with a shader object in place, the box drawn
with the texture "darkwood" is drawn with the "model" matrix of unit scale
and position (0, 0, 0), uploaded by the second `SetTransformations` before
the draw, and not with the matrix for scale (2, 0.3, 1) and position
(0, 0.5, -1); the box drawn with "backplate" is drawn with the matrix of unit
scale and position (0, 0, 2), and not with the matrix for scale (2, 2, 0.1)
and position (0, 1.4, -0.2). -/
theorem C16_box_draws_ignore_assigned_transform (L : FloatLib F) (s : SceneManager F)
    (sh : ShaderManager F) (hsh : s.m_pShaderManager = some sh) :
    ((SceneManager.RenderScene L s ⟨[]⟩).2.meshAtDraw 1 = some Mesh.Box
        ∧ (SceneManager.RenderScene L s ⟨[]⟩).2.uniformAtDraw 1 "objectTexture"
          = some (UniformValue.sampler2D (SceneManager.FindTextureSlot s "darkwood"))
        ∧ (SceneManager.RenderScene L s ⟨[]⟩).2.uniformAtDraw 1 "model"
          = some (UniformValue.mat4 (SceneManager.modelView L ⟨1, 1, 1⟩ 0 0 0 ⟨0, 0, 0⟩))
        ∧ (SceneManager.RenderScene L s ⟨[]⟩).2.uniformAtDraw 1 "model"
          ≠ some (UniformValue.mat4
              (SceneManager.modelView L ⟨2, 3 / 10, 1⟩ 0 0 0 ⟨0, 1 / 2, -1⟩)))
      ∧ ((SceneManager.RenderScene L s ⟨[]⟩).2.meshAtDraw 2 = some Mesh.Box
        ∧ (SceneManager.RenderScene L s ⟨[]⟩).2.uniformAtDraw 2 "objectTexture"
          = some (UniformValue.sampler2D (SceneManager.FindTextureSlot s "backplate"))
        ∧ (SceneManager.RenderScene L s ⟨[]⟩).2.uniformAtDraw 2 "model"
          = some (UniformValue.mat4 (SceneManager.modelView L ⟨1, 1, 1⟩ 0 0 0 ⟨0, 0, 2⟩))
        ∧ (SceneManager.RenderScene L s ⟨[]⟩).2.uniformAtDraw 2 "model"
          ≠ some (UniformValue.mat4
              (SceneManager.modelView L ⟨2, 2, 1 / 10⟩ 0 0 0 ⟨0, 7 / 5, -(1 / 5)⟩)))
      ∧ (L.inversesqrt 1 = 1 → L.cos 0 = 1 → L.sin 0 = 0 →
          (SceneManager.modelView L ⟨1, 1, 1⟩ 0 0 0 ⟨0, 0, 0⟩).toMatrix = 1
            ∧ (SceneManager.modelView L ⟨1, 1, 1⟩ 0 0 0 ⟨0, 0, 2⟩).toMatrix
              = Spec.Translation ⟨0, 0, 2⟩) := by
  obtain ⟨⟨hm1, ht1, hu1⟩, ⟨hm2, ht2, hu2⟩⟩ := RenderScene_box_draws L s sh hsh
  refine ⟨⟨hm1, ht1, hu1, ?_⟩, ⟨hm2, ht2, hu2, ?_⟩, ?_⟩
  · rw [hu1]
    intro h
    have hc3 := congrArg glm.mat4.c3 (UniformValue.mat4.inj (Option.some.inj h))
    rw [modelView_c3, modelView_c3] at hc3
    simp only [glm.vec4.mk.injEq] at hc3
    norm_num at hc3
  · rw [hu2]
    intro h
    have hc3 := congrArg glm.mat4.c3 (UniformValue.mat4.inj (Option.some.inj h))
    rw [modelView_c3, modelView_c3] at hc3
    simp only [glm.vec4.mk.injEq] at hc3
    norm_num at hc3
  · intro hone hc hs
    refine ⟨?_, modelView_unit_scale L hone hc hs _⟩
    rw [modelView_unit_scale L hone hc hs, Spec_identity_cases.2.2]

/-- C16, at the failing input: on the scene with the three textures loaded,
"darkwood" is in unit 1 and "backplate" in unit 2, and neither box is drawn
with the matrix of the scale and position assigned for it. -/
theorem C16_failing_input_loaded_scene :
    ((SceneManager.RenderScene ratLib loadedScene ⟨[]⟩).2.uniformAtDraw 1 "objectTexture"
        = some (UniformValue.sampler2D 1)
      ∧ (SceneManager.RenderScene ratLib loadedScene ⟨[]⟩).2.uniformAtDraw 1 "model"
        ≠ some (UniformValue.mat4
            (SceneManager.modelView ratLib ⟨2, 3 / 10, 1⟩ 0 0 0 ⟨0, 1 / 2, -1⟩)))
      ∧ ((SceneManager.RenderScene ratLib loadedScene ⟨[]⟩).2.uniformAtDraw 2 "objectTexture"
        = some (UniformValue.sampler2D 2)
      ∧ (SceneManager.RenderScene ratLib loadedScene ⟨[]⟩).2.uniformAtDraw 2 "model"
        ≠ some (UniformValue.mat4
            (SceneManager.modelView ratLib ⟨2, 2, 1 / 10⟩ 0 0 0 ⟨0, 7 / 5, -(1 / 5)⟩))) :=
  have h := C16_box_draws_ignore_assigned_transform ratLib loadedScene ⟨[]⟩ rfl
  ⟨⟨h.1.2.1.trans (by decide), h.1.2.2.2⟩, ⟨h.2.1.2.1.trans (by decide), h.2.1.2.2.2⟩⟩

end Draws

end CS330
